import Mathlib

/-!
Verification of the dnscat2 go-client against its design specification.

Shallow embedding of the repository's packet codecs, crypto engine, session
state machine, command sub-protocol, and DNS answer decoding.  Byte strings
are modelled as `List Nat` (each element a byte value), Go `uint16`/`uint32`
fields as `Nat` with explicit modulo-2^16 / 2^32 arithmetic, and fallible
operations as `Option`-valued functions.  Each definition is translated from
the corresponding Go function in the repository source.
-/

namespace Dnscat

/-! ## Byte-level helpers (mirroring encoding/binary big-endian writes/reads) -/

/-- Big-endian 2-byte serialization of a `uint16` value (binary.Write BigEndian). -/
def put16 (v : Nat) : List Nat := [v / 256 % 256, v % 256]

/-- Big-endian 4-byte serialization of a `uint32` value. -/
def put32 (v : Nat) : List Nat :=
  [v / 16777216 % 256, v / 65536 % 256, v / 256 % 256, v % 256]

/-- Single byte write (binary.Write of a uint8). -/
def put8 (v : Nat) : List Nat := [v % 256]

/-- binary.Read of a big-endian uint16: fails (EOF) when fewer than 2 bytes remain. -/
def read16 : List Nat → Option (Nat × List Nat)
  | a :: b :: rest => some (a * 256 + b, rest)
  | _ => none

/-- binary.Read of a uint8: fails when no byte remains. -/
def read8 : List Nat → Option (Nat × List Nat)
  | b :: rest => some (b, rest)
  | [] => none

/-- binary.Read of a big-endian uint16 with the error ignored (the command
codec ignores read errors): on short input the target variable keeps its zero
value and the reader is drained. -/
def read16d : List Nat → Nat × List Nat
  | a :: b :: rest => (a * 256 + b, rest)
  | _ => (0, [])

/-- binary.Read of a big-endian uint32 with the error ignored. -/
def read32d : List Nat → Nat × List Nat
  | a :: b :: c :: d :: rest => (((a * 256 + b) * 256 + c) * 256 + d, rest)
  | _ => (0, [])

/-- Big-endian value of the first four bytes (binary.BigEndian.Uint32). -/
def read32v (l : List Nat) : Nat :=
  ((l.getD 0 0 * 256 + l.getD 1 0) * 256 + l.getD 2 0) * 256 + l.getD 3 0

/-- readNTString in pkg/protocol: collects bytes until a NUL terminator;
an EOF before the terminator is an error. -/
def readNT : List Nat → Option (List Nat × List Nat)
  | [] => none
  | b :: rest =>
      if b = 0 then some ([], rest)
      else match readNT rest with
        | some (s, r) => some (b :: s, r)
        | none => none

/-- readNTString in the command codec: the same loop, but callers ignore the
error, so on EOF the bytes accumulated so far are used and the reader is
drained. -/
def readNTd : List Nat → List Nat × List Nat
  | [] => ([], [])
  | b :: rest =>
      if b = 0 then ([], rest)
      else
        let (s, r) := readNTd rest
        (b :: s, r)

/-- writeNTString: the string bytes followed by a NUL terminator. -/
def writeNT (s : List Nat) : List Nat := s ++ [0]

/-- Zero-padding a byte list up to a fixed size, as Go leaves the tail of a
fixed-size array at its zero value after a partial copy/read. -/
def padZero (k : Nat) (l : List Nat) : List Nat := l ++ List.replicate (k - l.length) 0

/-- bytes.Reader.Read into a `k`-byte array: an empty reader yields EOF (an
error); otherwise up to `k` bytes are read and the rest of the array stays
zero. -/
def readArr (k : Nat) : List Nat → Option (List Nat × List Nat)
  | [] => none
  | b :: rest => some (padZero k ((b :: rest).take k), (b :: rest).drop k)

/-- Byte values of a Go string literal. -/
def strBytes (s : String) : List Nat := s.toList.map Char.toNat

/-! ## SHA3-256 (the golang.org/x/crypto/sha3 dependency), implemented as the
standard Keccak-f[1600] sponge with rate 136 and SHA3 domain padding. -/

namespace Crypto

def w64mask : Nat := 0xFFFFFFFFFFFFFFFF

def rotl64 (x n : Nat) : Nat :=
  ((x <<< n) ||| (x >>> (64 - n))) &&& w64mask

/-- One step of the 8-bit LFSR of FIPS 202 Algorithm 5 that generates the
round-constant bits. -/
def rcUpdate (r : Nat) : Nat := ((r * 2) ^^^ (r / 128 * 0x71)) % 256

/-- LFSR register value after `t` steps from the initial value 1. -/
def lfsrAt (t : Nat) : Nat := Nat.iterate rcUpdate t 1

/-- The round-constant bit rc(t): the low bit of the register. -/
def rcBit (t : Nat) : Nat := lfsrAt t % 2

/-- The 24 Keccak round constants, assembled from the LFSR bits: bit 2^j - 1
of constant i is rc(7 i + j). -/
def keccakRC : List Nat :=
  (List.range 24).map fun i =>
    (List.range 7).foldl (fun acc j => acc + rcBit (7 * i + j) * 2 ^ (2 ^ j - 1)) 0

/-- The rho rotation offsets, generated by the (x, y) -> (y, 2x + 3y) walk of
FIPS 202: the lane visited at step t of the walk is rotated by the (t+1)-th
triangular number mod 64. -/
def rhoOffsets : List Nat :=
  ((List.range 24).foldl
    (fun acc t =>
      let l := acc.1
      let x := acc.2.1
      let y := acc.2.2
      (l.set (x + 5 * y) ((t + 1) * (t + 2) / 2 % 64), y, (2 * x + 3 * y) % 5))
    (List.replicate 25 0, 1, 0)).1

def theta (st : List Nat) : List Nat :=
  let c := List.ofFn (n := 5) fun x =>
    st.getD x.val 0 ^^^ st.getD (x.val + 5) 0 ^^^ st.getD (x.val + 10) 0 ^^^
      st.getD (x.val + 15) 0 ^^^ st.getD (x.val + 20) 0
  let d := List.ofFn (n := 5) fun x =>
    c.getD ((x.val + 4) % 5) 0 ^^^ rotl64 (c.getD ((x.val + 1) % 5) 0) 1
  List.ofFn (n := 25) fun i => st.getD i.val 0 ^^^ d.getD (i.val % 5) 0

def rhoPiStep (st : List Nat) : List Nat :=
  List.ofFn (n := 25) fun i =>
    let x := i.val % 5
    let y := i.val / 5
    let src := ((x + 3 * y) % 5) + 5 * x
    rotl64 (st.getD src 0) (rhoOffsets.getD src 0)

def chi (st : List Nat) : List Nat :=
  List.ofFn (n := 25) fun i =>
    let x := i.val % 5
    let y := i.val / 5
    st.getD i.val 0 ^^^
      ((st.getD ((x + 1) % 5 + 5 * y) 0 ^^^ w64mask) &&& st.getD ((x + 2) % 5 + 5 * y) 0)

def keccakRound (st : List Nat) (rc : Nat) : List Nat :=
  let st := chi (rhoPiStep (theta st))
  (st.getD 0 0 ^^^ rc) :: st.drop 1

def keccakF (st : List Nat) : List Nat :=
  keccakRC.foldl keccakRound st

def laneOfBytes (block : List Nat) (i : Nat) : Nat :=
  (List.range 8).foldr (fun j acc => acc * 256 + block.getD (8 * i + j) 0) 0

def sha3Rate : Nat := 136

def toLanes (block : List Nat) : List Nat :=
  List.ofFn (n := 17) fun i => laneOfBytes block i.val

def xorLanes (st : List Nat) (lanes : List Nat) : List Nat :=
  List.ofFn (n := 25) fun i => st.getD i.val 0 ^^^ lanes.getD i.val 0

/-- Absorb the padded message block by block; the fuel argument (instantiated
with the message length, an upper bound on the block count) makes the
recursion structural so the kernel can evaluate it. -/
def absorbAux : Nat → List Nat → List Nat → List Nat
  | 0, st, _ => st
  | _, st, [] => st
  | fuel + 1, st, p =>
      absorbAux fuel (keccakF (xorLanes st (toLanes (p.take sha3Rate)))) (p.drop sha3Rate)

def absorbBlocks (st : List Nat) (p : List Nat) : List Nat :=
  absorbAux p.length st p

def sha3Pad (m : List Nat) : List Nat :=
  let padLen := sha3Rate - (m.length % sha3Rate)
  if padLen = 1 then m ++ [0x86]
  else m ++ [0x06] ++ List.replicate (padLen - 2) 0 ++ [0x80]

/-- SHA3-256 digest (32 bytes) of a byte string. -/
def sha3_256 (m : List Nat) : List Nat :=
  let st := absorbBlocks (List.replicate 25 0) (sha3Pad m)
  (List.range 32).map fun i => st.getD (i / 8) 0 >>> (8 * (i % 8)) &&& 0xFF

end Crypto

/-! ## Outer packet codec (pkg/protocol/packet.go) -/

namespace Protocol

def MaxPacketSize : Nat := 1024

/-- Packet type codes (PacketTypeSYN/MSG/FIN/ENC/PING). -/
def typeSYN : Nat := 0x00
def typeMSG : Nat := 0x01
def typeFIN : Nat := 0x02
def typeENC : Nat := 0x03
def typePING : Nat := 0xFF

/-- ENC subtypes (EncSubtypeInit / EncSubtypeAuth). -/
def encSubtypeInit : Nat := 0x00
def encSubtypeAuth : Nat := 0x01

/-- SYN option bits (OptName and OptCommand). -/
def optName : Nat := 0x0001
def optCommand : Nat := 0x0020

/-- SYNPacket body: Seq, Options (uint16) and an optional name string
(modelled as its byte list; a Go string's zero value is the empty list). -/
structure SYNPacket where
  seq : Nat
  options : Nat
  name : List Nat
deriving DecidableEq, Repr

/-- MSGPacket body: Seq, Ack and the payload bytes. -/
structure MSGPacket where
  seq : Nat
  ack : Nat
  data : List Nat
deriving DecidableEq, Repr

/-- FINPacket body: a reason string. -/
structure FINPacket where
  reason : List Nat
deriving DecidableEq, Repr

/-- PINGPacket body: opaque string data. -/
structure PINGPacket where
  data : List Nat
deriving DecidableEq, Repr

/-- ENCPacket body: subtype, flags, a 64-byte public key and a 32-byte
authenticator (both always-present fixed-size arrays in the Go struct). -/
structure ENCPacket where
  subtype : Nat
  flags : Nat
  publicKey : List Nat
  authenticator : List Nat
deriving DecidableEq, Repr

/-- The outer Packet struct: header fields plus one optional body per type
(only one is set, matching the Go pointer fields). -/
structure Packet where
  packetID : Nat
  packetType : Nat
  sessionID : Nat
  syn : Option SYNPacket := none
  msg : Option MSGPacket := none
  fin : Option FINPacket := none
  ping : Option PINGPacket := none
  enc : Option ENCPacket := none
deriving DecidableEq, Repr

/-- Parse (packet.go): parses a packet from raw bytes.  The unused Options
argument of the Go function is omitted.  Returns `none` for any of the Go
error returns. -/
def parse (data : List Nat) : Option Packet :=
  if data.length < 5 then none
  else if data.length > MaxPacketSize then none
  else do
    let (pid, r1) ← read16 data
    let (ptype, r2) ← read8 r1
    let (sid, r3) ← read16 r2
    if ptype = typeSYN then do
      let (seq, r4) ← read16 r3
      let (opts, r5) ← read16 r4
      if opts &&& optName ≠ 0 then do
        let (name, _) ← readNT r5
        pure { packetID := pid, packetType := ptype, sessionID := sid,
               syn := some ⟨seq, opts, name⟩ }
      else
        pure { packetID := pid, packetType := ptype, sessionID := sid,
               syn := some ⟨seq, opts, []⟩ }
    else if ptype = typeMSG then do
      let (seq, r4) ← read16 r3
      let (ack, r5) ← read16 r4
      pure { packetID := pid, packetType := ptype, sessionID := sid,
             msg := some ⟨seq, ack, r5⟩ }
    else if ptype = typeFIN then do
      let (reason, _) ← readNT r3
      pure { packetID := pid, packetType := ptype, sessionID := sid,
             fin := some ⟨reason⟩ }
    else if ptype = typePING then do
      let (pdata, _) ← readNT r3
      pure { packetID := pid, packetType := ptype, sessionID := sid,
             ping := some ⟨pdata⟩ }
    else if ptype = typeENC then do
      let (subtype, r4) ← read16 r3
      let (flags, r5) ← read16 r4
      if subtype = encSubtypeInit then do
        let (pk, _) ← readArr 64 r5
        pure { packetID := pid, packetType := ptype, sessionID := sid,
               enc := some ⟨subtype, flags, pk, List.replicate 32 0⟩ }
      else if subtype = encSubtypeAuth then do
        let (auth, _) ← readArr 32 r5
        pure { packetID := pid, packetType := ptype, sessionID := sid,
               enc := some ⟨subtype, flags, List.replicate 64 0, auth⟩ }
      else
        pure { packetID := pid, packetType := ptype, sessionID := sid,
               enc := some ⟨subtype, flags, List.replicate 64 0, List.replicate 32 0⟩ }
    else none

/-- PeekSessionID (packet.go): session id from raw bytes without a full parse. -/
def peekSessionID (data : List Nat) : Option Nat :=
  if data.length < 5 then none
  else some (data.getD 3 0 * 256 + data.getD 4 0)

/-- ToBytes (packet.go): serializes the packet; `none` models the error
returns (nil body or unknown type). -/
def toBytes (p : Packet) : Option (List Nat) :=
  let header := put16 p.packetID ++ put8 p.packetType ++ put16 p.sessionID
  if p.packetType = typeSYN then
    match p.syn with
    | none => none
    | some syn =>
        some (header ++ put16 syn.seq ++ put16 syn.options ++
          (if syn.options &&& optName ≠ 0 then writeNT syn.name else []))
  else if p.packetType = typeMSG then
    match p.msg with
    | none => none
    | some msg => some (header ++ put16 msg.seq ++ put16 msg.ack ++ msg.data)
  else if p.packetType = typeFIN then
    match p.fin with
    | none => none
    | some fin => some (header ++ writeNT fin.reason)
  else if p.packetType = typePING then
    match p.ping with
    | none => none
    | some ping => some (header ++ writeNT ping.data)
  else if p.packetType = typeENC then
    match p.enc with
    | none => none
    | some enc =>
        some (header ++ put16 enc.subtype ++ put16 enc.flags ++
          (if enc.subtype = encSubtypeInit then enc.publicKey
           else if enc.subtype = encSubtypeAuth then enc.authenticator
           else []))
  else none

/-- CreateSYN (packet.go); the random packet id is passed explicitly. -/
def createSYN (pid sessionID seq options : Nat) : Packet :=
  { packetID := pid, packetType := typeSYN, sessionID := sessionID,
    syn := some ⟨seq, options, []⟩ }

/-- CreateMSG (packet.go). -/
def createMSG (pid sessionID seq ack : Nat) (data : List Nat) : Packet :=
  { packetID := pid, packetType := typeMSG, sessionID := sessionID,
    msg := some ⟨seq, ack, data⟩ }

/-- CreateFIN (packet.go). -/
def createFIN (pid sessionID : Nat) (reason : List Nat) : Packet :=
  { packetID := pid, packetType := typeFIN, sessionID := sessionID,
    fin := some ⟨reason⟩ }

/-- CreatePING (packet.go). -/
def createPING (pid sessionID : Nat) (data : List Nat) : Packet :=
  { packetID := pid, packetType := typePING, sessionID := sessionID,
    ping := some ⟨data⟩ }

/-- CreateENC (packet.go): both fixed-size arrays start at their zero value. -/
def createENC (pid sessionID flags : Nat) : Packet :=
  { packetID := pid, packetType := typeENC, sessionID := sessionID,
    enc := some ⟨0, flags, List.replicate 64 0, List.replicate 32 0⟩ }

/-- SetName (packet.go): sets OptName and the name on a SYN packet. -/
def setName (p : Packet) (name : List Nat) : Packet :=
  match p.syn with
  | some syn => { p with syn := some ⟨syn.seq, syn.options ||| optName, name⟩ }
  | none => p

/-- SetIsCommand (packet.go). -/
def setIsCommand (p : Packet) : Packet :=
  match p.syn with
  | some syn => { p with syn := some ⟨syn.seq, syn.options ||| optCommand, syn.name⟩ }
  | none => p

/-- SetEncInit (packet.go): `copy` into the 64-byte array keeps the zero tail. -/
def setEncInit (p : Packet) (publicKey : List Nat) : Packet :=
  match p.enc with
  | some enc =>
      { p with enc := some ⟨encSubtypeInit, enc.flags,
          padZero 64 (publicKey.take 64), enc.authenticator⟩ }
  | none => p

/-- SetEncAuth (packet.go). -/
def setEncAuth (p : Packet) (authenticator : List Nat) : Packet :=
  match p.enc with
  | some enc =>
      { p with enc := some ⟨encSubtypeAuth, enc.flags,
          enc.publicKey, padZero 32 (authenticator.take 32)⟩ }
  | none => p

/-- GetMSGSize (packet.go): length of an empty MSG packet serialization. -/
def getMSGSize : Nat := ((toBytes (createMSG 0 0 0 0 [])).getD []).length

/-- GetPINGSize (packet.go): length of an empty PING packet serialization. -/
def getPINGSize : Nat := ((toBytes (createPING 0 0 [])).getD []).length

/-- Well-formedness of an outer packet for the round trip: exactly the body
matching the packet type is present, 16-bit fields are in range, string
fields are NUL-free, a SYN carries a name exactly when its name option bit
is set, and an ENC body has its fixed-size field at its exact length with
the unused field zero. -/
def wfPacket (p : Packet) : Prop :=
  p.packetID < 65536 ∧ p.sessionID < 65536 ∧
  ((∃ syn, p = { packetID := p.packetID, packetType := typeSYN, sessionID := p.sessionID, syn := some syn } ∧ syn.seq < 65536 ∧ syn.options < 65536 ∧ (syn.options &&& optName ≠ 0 → (0:Nat) ∉ syn.name) ∧ (syn.options &&& optName = 0 → syn.name = [])) ∨
   (∃ msg, p = { packetID := p.packetID, packetType := typeMSG, sessionID := p.sessionID, msg := some msg } ∧ msg.seq < 65536 ∧ msg.ack < 65536) ∨
   (∃ fin, p = { packetID := p.packetID, packetType := typeFIN, sessionID := p.sessionID, fin := some fin } ∧ (0:Nat) ∉ fin.reason) ∨
   (∃ ping, p = { packetID := p.packetID, packetType := typePING, sessionID := p.sessionID, ping := some ping } ∧ (0:Nat) ∉ ping.data) ∨
   (∃ enc, p = { packetID := p.packetID, packetType := typeENC, sessionID := p.sessionID, enc := some enc } ∧ enc.flags < 65536 ∧ ((enc.subtype = encSubtypeInit ∧ enc.publicKey.length = 64 ∧ enc.authenticator = List.replicate 32 0) ∨ (enc.subtype = encSubtypeAuth ∧ enc.authenticator.length = 32 ∧ enc.publicKey = List.replicate 64 0))))


end Protocol

/-! ## Command sub-protocol codec (the command package) -/

namespace Command

/-- Command kind codes. -/
def commandPing : Nat := 0x0000
def commandShell : Nat := 0x0001
def commandExec : Nat := 0x0002
def commandDownload : Nat := 0x0003
def commandUpload : Nat := 0x0004
def commandShutdown : Nat := 0x0005
def commandDelay : Nat := 0x0006
def tunnelConnect : Nat := 0x1000
def tunnelData : Nat := 0x1001
def tunnelClose : Nat := 0x1002
def commandError : Nat := 0xFFFF

/-- The command Packet struct: request id, command id, direction, and one
optional body per kind/direction, matching the Go pointer fields.  Strings
are byte lists; numeric fields are Nat (uint16/uint32 values). -/
structure CmdPacket where
  requestID : Nat
  commandID : Nat
  isRequest : Bool
  pingRequest : Option (List Nat) := none
  shellRequest : Option (List Nat) := none
  execRequest : Option (List Nat × List Nat) := none
  downloadRequest : Option (List Nat) := none
  uploadRequest : Option (List Nat × List Nat) := none
  shutdownRequest : Option Unit := none
  delayRequest : Option Nat := none
  tunnelConnectRequest : Option (Nat × List Nat × Nat) := none
  tunnelDataRequest : Option (Nat × List Nat) := none
  tunnelCloseRequest : Option (Nat × List Nat) := none
  errorRequest : Option (Nat × List Nat) := none
  pingResponse : Option (List Nat) := none
  shellResponse : Option Nat := none
  execResponse : Option Nat := none
  downloadResponse : Option (List Nat) := none
  uploadResponse : Option Unit := none
  shutdownResponse : Option Unit := none
  delayResponse : Option Unit := none
  tunnelConnectResponse : Option (Nat × Nat) := none
  errorResponse : Option (Nat × List Nat) := none
deriving DecidableEq, Repr

/-- parsePacket (command codec): decodes one length-stripped frame.  Read
errors on the field reads are ignored by the Go code (the `_ :=` pattern), so
the draining readers `read16d`/`read32d`/`readNTd` are used. -/
def parsePacket (data : List Nat) : Option CmdPacket :=
  if data.length < 4 then none
  else
    let (packedID, r1) := read16d data
    let requestID := packedID &&& 0x7FFF
    let isRequest := packedID &&& 0x8000 = 0
    let (cmdID, r2) := read16d r1
    let base : CmdPacket := { requestID := requestID, commandID := cmdID, isRequest := isRequest }
    if cmdID = commandPing then
      let (s, _) := readNTd r2
      some (if isRequest then { base with pingRequest := some s }
            else { base with pingResponse := some s })
    else if cmdID = commandShell then
      if isRequest then
        let (s, _) := readNTd r2
        some { base with shellRequest := some s }
      else
        let (sid, _) := read16d r2
        some { base with shellResponse := some sid }
    else if cmdID = commandExec then
      if isRequest then
        let (name, r3) := readNTd r2
        let (cmd, _) := readNTd r3
        some { base with execRequest := some (name, cmd) }
      else
        let (sid, _) := read16d r2
        some { base with execResponse := some sid }
    else if cmdID = commandDownload then
      if isRequest then
        let (fn, _) := readNTd r2
        some { base with downloadRequest := some fn }
      else
        some { base with downloadResponse := some r2 }
    else if cmdID = commandUpload then
      if isRequest then
        let (fn, r3) := readNTd r2
        some { base with uploadRequest := some (fn, r3) }
      else
        some { base with uploadResponse := some () }
    else if cmdID = commandShutdown then
      some (if isRequest then { base with shutdownRequest := some () }
            else { base with shutdownResponse := some () })
    else if cmdID = commandDelay then
      if isRequest then
        let (d, _) := read32d r2
        some { base with delayRequest := some d }
      else
        some { base with delayResponse := some () }
    else if cmdID = tunnelConnect then
      if isRequest then
        let (opts, r3) := read32d r2
        let (host, r4) := readNTd r3
        let (port, _) := read16d r4
        some { base with tunnelConnectRequest := some (opts, host, port) }
      else
        let (tid, _) := read32d r2
        some { base with tunnelConnectResponse := some (0, tid) }
    else if cmdID = tunnelData then
      if isRequest then
        let (tid, r3) := read32d r2
        some { base with tunnelDataRequest := some (tid, r3) }
      else
        some base
    else if cmdID = tunnelClose then
      if isRequest then
        let (tid, r3) := read32d r2
        let (reason, _) := readNTd r3
        some { base with tunnelCloseRequest := some (tid, reason) }
      else
        some base
    else if cmdID = commandError then
      let (status, r3) := read16d r2
      let (reason, _) := readNTd r3
      some (if isRequest then { base with errorRequest := some (status, reason) }
            else { base with errorResponse := some (status, reason) })
    else none

/-- Body serialization of ToBytes (command codec), before the length prefix:
the packed id/direction field, the command id, then the kind-specific body
(nothing is written when the matching body pointer is nil). -/
def cmdBodyBytes (p : CmdPacket) : List Nat :=
  let packedID := (p.requestID &&& 0x7FFF) ||| (if p.isRequest then 0 else 0x8000)
  put16 packedID ++ put16 p.commandID ++
  (if p.commandID = commandPing then
    match p.isRequest, p.pingRequest, p.pingResponse with
    | true, some s, _ => writeNT s
    | false, _, some s => writeNT s
    | _, _, _ => []
  else if p.commandID = commandShell then
    match p.isRequest, p.shellRequest, p.shellResponse with
    | true, some s, _ => writeNT s
    | false, _, some sid => put16 sid
    | _, _, _ => []
  else if p.commandID = commandExec then
    match p.isRequest, p.execRequest, p.execResponse with
    | true, some (name, cmd), _ => writeNT name ++ writeNT cmd
    | false, _, some sid => put16 sid
    | _, _, _ => []
  else if p.commandID = commandDownload then
    match p.isRequest, p.downloadRequest, p.downloadResponse with
    | true, some fn, _ => writeNT fn
    | false, _, some d => d
    | _, _, _ => []
  else if p.commandID = commandUpload then
    match p.isRequest, p.uploadRequest with
    | true, some (fn, d) => writeNT fn ++ d
    | _, _ => []
  else if p.commandID = commandShutdown then []
  else if p.commandID = commandDelay then
    match p.isRequest, p.delayRequest with
    | true, some d => put32 d
    | _, _ => []
  else if p.commandID = tunnelConnect then
    match p.isRequest, p.tunnelConnectRequest, p.tunnelConnectResponse with
    | true, some (opts, host, port), _ => put32 opts ++ writeNT host ++ put16 port
    | false, _, some (_, tid) => put32 tid
    | _, _, _ => []
  else if p.commandID = tunnelData then
    match p.isRequest, p.tunnelDataRequest with
    | true, some (tid, d) => put32 tid ++ d
    | _, _ => []
  else if p.commandID = tunnelClose then
    match p.isRequest, p.tunnelCloseRequest with
    | true, some (tid, reason) => put32 tid ++ writeNT reason
    | _, _ => []
  else if p.commandID = commandError then
    match p.isRequest, p.errorRequest, p.errorResponse with
    | true, some (status, reason), _ => put16 status ++ writeNT reason
    | false, _, some (status, reason) => put16 status ++ writeNT reason
    | _, _, _ => []
  else [])

/-- ToBytes (command codec): the 4-byte big-endian length prefix followed by
the body (the length is the Go `uint32(len(data))`, i.e. modulo 2^32). -/
def cmdToBytes (p : CmdPacket) : List Nat :=
  let data := cmdBodyBytes p
  put32 (data.length % 4294967296) ++ data

/-- Result of ReadPacket (command codec) on a buffered stream. -/
inductive ReadPacketResult where
  /-- a decode error; `rest` is the buffer contents after the call -/
  | fail (rest : List Nat)
  /-- nil, nil: not enough data buffered yet (buffer unchanged) -/
  | needMore
  /-- a decoded packet plus the remaining buffer -/
  | ok (p : CmdPacket) (rest : List Nat)
deriving DecidableEq, Repr

/-- ReadPacket (command codec): length-prefix framing over a byte stream. -/
def readPacket (buf : List Nat) : ReadPacketResult :=
  if buf.length < 4 then .needMore
  else
    let length := read32v (buf.take 4)
    if length + 4 ≥ 4294967296 then .fail buf
    else if buf.length < length + 4 then .needMore
    else
      match parsePacket ((buf.drop 4).take length) with
      | none => .fail (buf.drop (4 + length))
      | some p => .ok p (buf.drop (4 + length))

/-- CreateErrorResponse (command codec). -/
def createErrorResponse (requestID status : Nat) (reason : List Nat) : CmdPacket :=
  { requestID := requestID, commandID := commandError, isRequest := false,
    errorResponse := some (status, reason) }

/-- processPackets (pkg/driver/command/driver.go), with the per-packet
handler (`handlePacket`, which performs process/file/network side effects)
abstracted as a function argument.  Returns the stream and outgoing buffers
after the loop.  The fuel argument makes the loop's structural recursion
explicit; each iteration consumes at least 4 stream bytes, so any fuel of at
least `stream.length` reproduces the loop exactly. -/
def processPackets (handle : CmdPacket → Option CmdPacket) :
    Nat → List Nat → List Nat → List Nat × List Nat
  | 0, stream, outgoing => (stream, outgoing)
  | fuel + 1, stream, outgoing =>
      match readPacket stream with
      | .fail rest => (rest, outgoing)
      | .needMore => (stream, outgoing)
      | .ok pkt rest =>
          match handle pkt with
          | none => processPackets handle fuel rest outgoing
          | some out => processPackets handle fuel rest (outgoing ++ cmdToBytes out)

/-- The default branch of handlePacket (pkg/driver/command/driver.go): a
command kind the driver does not know yields a "Not implemented yet!" error
response with status 0xFFFF. -/
def handleUnknownCommand (pkt : CmdPacket) : CmdPacket :=
  createErrorResponse pkt.requestID 0xFFFF (strBytes ("Not implemented yet!"))

/-- The set of command kinds handlePacket dispatches on; any other kind falls
through to the default branch. -/
def knownCommandID (c : Nat) : Bool :=
  c = commandPing || c = commandShell || c = commandExec || c = commandDownload ||
  c = commandUpload || c = commandShutdown || c = commandDelay || c = tunnelConnect ||
  c = tunnelData || c = tunnelClose || c = commandError

/-- The well-formedness of a command packet needed for the round trip: the
request id fits in 15 bits, and exactly the body matching the command kind
and direction bit is present, with NUL-free strings and in-range numbers. -/
def wfCmd (q : CmdPacket) : Prop :=
  q.requestID < 32768 ∧
  ((∃ s, (0:Nat) ∉ s ∧ q = { requestID := q.requestID, commandID := commandPing, isRequest := true, pingRequest := some s }) ∨
   (∃ s, (0:Nat) ∉ s ∧ q = { requestID := q.requestID, commandID := commandPing, isRequest := false, pingResponse := some s }) ∨
   (∃ s, (0:Nat) ∉ s ∧ q = { requestID := q.requestID, commandID := commandShell, isRequest := true, shellRequest := some s }) ∨
   (∃ sid, sid < 65536 ∧ q = { requestID := q.requestID, commandID := commandShell, isRequest := false, shellResponse := some sid }) ∨
   (∃ name cmd, (0:Nat) ∉ name ∧ (0:Nat) ∉ cmd ∧ q = { requestID := q.requestID, commandID := commandExec, isRequest := true, execRequest := some (name, cmd) }) ∨
   (∃ sid, sid < 65536 ∧ q = { requestID := q.requestID, commandID := commandExec, isRequest := false, execResponse := some sid }) ∨
   (∃ fn, (0:Nat) ∉ fn ∧ q = { requestID := q.requestID, commandID := commandDownload, isRequest := true, downloadRequest := some fn }) ∨
   (∃ d, q = { requestID := q.requestID, commandID := commandDownload, isRequest := false, downloadResponse := some d }) ∨
   (∃ fn d, (0:Nat) ∉ fn ∧ q = { requestID := q.requestID, commandID := commandUpload, isRequest := true, uploadRequest := some (fn, d) }) ∨
   (q = { requestID := q.requestID, commandID := commandUpload, isRequest := false, uploadResponse := some () }) ∨
   (q = { requestID := q.requestID, commandID := commandShutdown, isRequest := true, shutdownRequest := some () }) ∨
   (q = { requestID := q.requestID, commandID := commandShutdown, isRequest := false, shutdownResponse := some () }) ∨
   (∃ d, d < 4294967296 ∧ q = { requestID := q.requestID, commandID := commandDelay, isRequest := true, delayRequest := some d }) ∨
   (q = { requestID := q.requestID, commandID := commandDelay, isRequest := false, delayResponse := some () }) ∨
   (∃ opts host port, opts < 4294967296 ∧ (0:Nat) ∉ host ∧ port < 65536 ∧ q = { requestID := q.requestID, commandID := tunnelConnect, isRequest := true, tunnelConnectRequest := some (opts, host, port) }) ∨
   (∃ tid, tid < 4294967296 ∧ q = { requestID := q.requestID, commandID := tunnelConnect, isRequest := false, tunnelConnectResponse := some (0, tid) }) ∨
   (∃ tid d, tid < 4294967296 ∧ q = { requestID := q.requestID, commandID := tunnelData, isRequest := true, tunnelDataRequest := some (tid, d) }) ∨
   (q = { requestID := q.requestID, commandID := tunnelData, isRequest := false }) ∨
   (∃ tid reason, tid < 4294967296 ∧ (0:Nat) ∉ reason ∧ q = { requestID := q.requestID, commandID := tunnelClose, isRequest := true, tunnelCloseRequest := some (tid, reason) }) ∨
   (q = { requestID := q.requestID, commandID := tunnelClose, isRequest := false }) ∨
   (∃ status reason, status < 65536 ∧ (0:Nat) ∉ reason ∧ q = { requestID := q.requestID, commandID := commandError, isRequest := true, errorRequest := some (status, reason) }) ∨
   (∃ status reason, status < 65536 ∧ (0:Nat) ∉ reason ∧ q = { requestID := q.requestID, commandID := commandError, isRequest := false, errorResponse := some (status, reason) }))

end Command

/-! ## Concrete packets for the round-trip claim (C1) -/

/-- A SYN body with the name option bit set and a NUL-free name. -/
def c1syn : Protocol.SYNPacket := ⟨100, 1, [104, 105]⟩

/-- A well-formed SYN packet. -/
def c1pkt : Protocol.Packet :=
  { packetID := 1, packetType := Protocol.typeSYN, sessionID := 2, syn := some c1syn }

/-- The serialization of `c1pkt`. -/
def c1bytes : List Nat := [0, 1, 0, 0, 2, 0, 100, 0, 1, 104, 105, 0]

/-- A well-formed ping command request. -/
def c1cmd : Command.CmdPacket :=
  { requestID := 5, commandID := Command.commandPing, isRequest := true,
    pingRequest := some [33] }

/-- A SYN packet whose name bytes contain an interior NUL. -/
def c1nulSyn : Protocol.Packet :=
  { packetID := 1, packetType := Protocol.typeSYN, sessionID := 2, syn := some ⟨3, 1, [65, 0, 66]⟩ }

/-- The serialization of `c1nulSyn`. -/
def c1nulBytes : List Nat := [0, 1, 0, 0, 2, 0, 3, 0, 1, 65, 0, 66, 0]

/-- A tunnel-connect response whose status word is nonzero. -/
def c1tcr : Command.CmdPacket :=
  { requestID := 5, commandID := Command.tunnelConnect, isRequest := false,
    tunnelConnectResponse := some (7, 9) }


/-! ## Crypto engine (pkg/crypto/encryptor.go)

The Salsa20 keystream and the P-256 ECDH agreement are external library
primitives (golang.org/x/crypto, crypto/ecdh); they enter the embedding as
function parameters `ks` (key → 16-bit nonce counter → length → keystream
bytes; the remaining six nonce bytes are always zero so the counter
determines the Go nonce buffer) and `ecdh` (private key → peer public key →
shared secret, `none` on an invalid key). -/

namespace Crypto

def HeaderLength : Nat := 5
def SignatureLength : Nat := 6

/-- The Encryptor struct: preshared secret, key material and the send nonce.
Fixed-size [32]byte fields start at their zero value. -/
structure Encryptor where
  presharedSecret : List Nat
  myPrivateKey : List Nat
  myPublicKey : List Nat
  theirPublicKey : List Nat := []
  sharedSecret : List Nat := List.replicate 32 0
  myAuthenticator : List Nat := List.replicate 32 0
  theirAuthenticator : List Nat := List.replicate 32 0
  myWriteKey : List Nat := List.replicate 32 0
  myMacKey : List Nat := List.replicate 32 0
  theirWriteKey : List Nat := List.replicate 32 0
  theirMacKey : List Nat := List.replicate 32 0
  nonce : Nat := 0
deriving DecidableEq, Repr

/-- GetMyPublicKey: strips the 0x04 uncompressed-point marker from a 65-byte
P-256 public key. -/
def getMyPublicKey (e : Encryptor) : List Nat :=
  if e.myPublicKey.length = 65 ∧ e.myPublicKey.getD 0 0 = 0x04 then e.myPublicKey.drop 1
  else e.myPublicKey

/-- makeKey: SHA3-256 of the shared secret followed by the key label; the
32-byte digest is copied into the 32-byte key field. -/
def makeKey (e : Encryptor) (keyName : List Nat) : List Nat :=
  sha3_256 (e.sharedSecret ++ keyName)

/-- makeAuthenticator: SHA3-256 of the role string, the shared secret, our
public key, their public key, and the preshared secret, in that order. -/
def makeAuthenticator (e : Encryptor) (authString : List Nat) : List Nat :=
  sha3_256 (authString ++ e.sharedSecret ++ getMyPublicKey e ++ e.theirPublicKey ++
    e.presharedSecret)

/-- SetTheirPublicKey: re-adds the 0x04 marker to a 64-byte key, runs the key
agreement, stores the 32-byte shared secret, derives the four symmetric keys
and (when a preshared secret is configured) both authenticators.  `none`
models the error returns (invalid public key / failed agreement). -/
def setTheirPublicKey (ecdh : List Nat → List Nat → Option (List Nat))
    (e : Encryptor) (theirPubKey : List Nat) : Option Encryptor :=
  match ecdh e.myPrivateKey
      (if theirPubKey.length = 64 then 0x04 :: theirPubKey else theirPubKey) with
  | none => none
  | some shared =>
      let e1 := { e with theirPublicKey := theirPubKey,
                         sharedSecret := padZero 32 (shared.take 32) }
      let e2 := { e1 with myWriteKey := makeKey e1 (strBytes ("client_write_key")),
                          myMacKey := makeKey e1 (strBytes ("client_mac_key")),
                          theirWriteKey := makeKey e1 (strBytes ("server_write_key")),
                          theirMacKey := makeKey e1 (strBytes ("server_mac_key")) }
      let e3 :=
        if e2.presharedSecret ≠ [] then
          { e2 with myAuthenticator := makeAuthenticator e2 (strBytes ("client")),
                    theirAuthenticator := makeAuthenticator e2 (strBytes ("server")) }
        else e2
      some e3

/-- ShouldRenegotiate: the send nonce is close to wrapping. -/
def shouldRenegotiate (e : Encryptor) : Bool :=
  e.nonce > 0xFFF0

/-- CheckSignature: splits header / 6-byte signature / body, recomputes the
truncated SHA3-256 over (their MAC key ∥ header ∥ body) and compares; on
success returns the data without the signature. -/
def checkSignature (e : Encryptor) (data : List Nat) : Option (List Nat) :=
  if data.length < HeaderLength + SignatureLength then none
  else
    let header := data.take HeaderLength
    let theirSig := (data.drop HeaderLength).take SignatureLength
    let body := data.drop (HeaderLength + SignatureLength)
    let goodSig := (sha3_256 (e.theirMacKey ++ header ++ body)).take SignatureLength
    if theirSig = goodSig then some (header ++ body) else none

/-- Decrypt: reads the 2-byte big-endian nonce after the header and XORs the
body with the peer-write-key keystream for that nonce. -/
def decrypt (ks : List Nat → Nat → Nat → List Nat) (e : Encryptor) (data : List Nat) :
    Option (List Nat × Nat) :=
  if data.length < HeaderLength + 2 then none
  else
    let header := data.take HeaderLength
    let nonce := (data.getD HeaderLength 0) * 256 + data.getD (HeaderLength + 1) 0
    let body := data.drop (HeaderLength + 2)
    let decrypted := List.zipWith (· ^^^ ·) body (ks e.theirWriteKey nonce body.length)
    some (header ++ decrypted, nonce)

/-- Sign: prepends the truncated SHA3-256 over (my MAC key ∥ header ∥ body)
between header and body. -/
def sign (e : Encryptor) (data : List Nat) : List Nat :=
  if data.length < HeaderLength then data
  else
    let header := data.take HeaderLength
    let body := data.drop HeaderLength
    let sig := (sha3_256 (e.myMacKey ++ header ++ body)).take SignatureLength
    header ++ sig ++ body

/-- Encrypt: consumes the send nonce (GetNonce, a uint16 that wraps), embeds
it big-endian after the header and XORs the body with the own-write-key
keystream.  Returns the new encryptor state alongside the bytes. -/
def encrypt (ks : List Nat → Nat → Nat → List Nat) (e : Encryptor) (data : List Nat) :
    List Nat × Encryptor :=
  if data.length < HeaderLength then (data, e)
  else
    let header := data.take HeaderLength
    let body := data.drop HeaderLength
    let nonce := e.nonce
    let e2 := { e with nonce := (e.nonce + 1) % 65536 }
    let encrypted := List.zipWith (· ^^^ ·) body (ks e.myWriteKey nonce body.length)
    (header ++ put16 nonce ++ encrypted, e2)

end Crypto

/-! ## Session state machine (pkg/session/session.go) -/

namespace SessionM

open Protocol Crypto

/-- Session states. -/
inductive SState where
  | beforeInit
  | beforeAuth
  | newState
  | established
deriving DecidableEq, Repr

/-- The process-wide tunable settings of the session package, threaded
explicitly. -/
structure Config where
  doEncryption : Bool := true
  presharedSecret : List Nat := []
  transmitInstantOnData : Bool := true
  packetDelay : Nat := 1000
deriving Repr

/-- The Session struct.  Time values (LastTransmit) are Nat instants; the Go
zero time is 0. -/
structure Session where
  id : Nat
  state : SState
  theirSeq : Nat := 0
  mySeq : Nat
  name : List Nat := []
  options : Nat := 0
  isCommand : Bool := false
  isPing : Bool := false
  outgoingBuffer : List Nat := []
  encryptor : Option Encryptor := none
  newEncryptor : Option Encryptor := none
  lastTransmit : Nat := 0
  missedTransmissions : Nat := 0
  isShutdown : Bool := false
deriving DecidableEq, Repr

/-- shouldEncrypt (session.go). -/
def shouldEncrypt (cfg : Config) (s : Session) : Bool :=
  cfg.doEncryption && !(s.state = SState.beforeInit : Bool)

/-- canTransmitYet (session.go): time since last transmit exceeds the delay. -/
def canTransmitYet (cfg : Config) (now : Nat) (s : Session) : Bool :=
  now - s.lastTransmit > cfg.packetDelay

/-- Kill (session.go): marks the session shut down (and closes the driver);
killing an already-dead session only logs. -/
def kill (s : Session) : Session :=
  if s.isShutdown then s else { s with isShutdown := true }

/-- pollDriverForData (session.go): `driverOut` is the result of the driver's
GetOutgoing(-1) call — `none` when the driver is done, otherwise the newly
available bytes. -/
def pollDriver (driverOut : Option (List Nat)) (s : Session) : Session :=
  match driverOut with
  | none => if s.outgoingBuffer.length = 0 then kill s else s
  | some d => if d.length > 0 then { s with outgoingBuffer := s.outgoingBuffer ++ d } else s

/-- Result of handleMSG: the updated session, the payloads handed to the
Application Driver, and the send-right-away flag. -/
structure MsgResult where
  session : Session
  delivered : List (List Nat)
  sendRightAway : Bool
deriving DecidableEq, Repr

/-- handleMSG (session.go).  `(msg.ack + 65536 - s.mySeq) % 65536` is the Go
uint16 subtraction `pkt.MSG.Ack - s.MySeq` (the further `& 0xFFFF` is a
no-op on uint16). -/
def handleMSG (cfg : Config) (s : Session) (msg : MSGPacket) : MsgResult :=
  if s.state ≠ SState.established then ⟨s, [], false⟩
  else if msg.seq = s.theirSeq then
    let bytesAcked := (msg.ack + 65536 - s.mySeq) % 65536
    if bytesAcked ≤ s.outgoingBuffer.length then
      let s1 := { s with missedTransmissions := 0 }
      let (s2, sendRightAway) :=
        if bytesAcked > 0 ∧ cfg.transmitInstantOnData then
          ({ s1 with lastTransmit := 0 }, true)
        else (s1, false)
      let s3 := { s2 with theirSeq := (s2.theirSeq + msg.data.length) % 65536 }
      let s4 :=
        if bytesAcked > 0 then
          { s3 with outgoingBuffer := s3.outgoingBuffer.drop bytesAcked,
                    mySeq := (s3.mySeq + bytesAcked) % 65536 }
        else s3
      if msg.data.length > 0 then
        ⟨{ s4 with lastTransmit := 0 }, [msg.data], sendRightAway⟩
      else ⟨s4, [], sendRightAway⟩
    else ⟨s, [], false⟩
  else ⟨s, [], false⟩

/-- handleSYN (session.go): only valid in state New. -/
def handleSYN (s : Session) (syn : SYNPacket) : Session × Bool :=
  match s.state with
  | SState.newState =>
      ({ s with theirSeq := syn.seq, options := syn.options,
                missedTransmissions := 0, state := SState.established }, true)
  | _ => (s, false)

/-- handleFIN (session.go). -/
def handleFIN (s : Session) : Session × Bool :=
  (kill { s with lastTransmit := 0, missedTransmissions := 0 }, true)

/-- Result of an incoming-data step: a normal return, an os.Exit(1), or a
nil-pointer dereference (a Go runtime panic; unreachable under the session
invariants assumed by the claims). -/
inductive InRes where
  | exitRes
  | panicRes
  | ret (sendRightAway : Bool) (s : Session) (delivered : List (List Nat))
deriving DecidableEq, Repr

/-- handleENC (session.go): the handshake steps and the renegotiation swap.
Unexpected subtypes, a failed key agreement, a wrong authenticator and an
unsolicited renegotiation all call os.Exit(1). -/
def handleENC (ecdh : List Nat → List Nat → Option (List Nat))
    (s : Session) (enc : ENCPacket) : InRes :=
  match s.state with
  | SState.beforeInit =>
      if enc.subtype ≠ encSubtypeInit then .exitRes
      else
        match s.encryptor with
        | none => .panicRes
        | some e =>
            match setTheirPublicKey ecdh e enc.publicKey with
            | none => .exitRes
            | some e2 =>
                if e2.presharedSecret ≠ [] then
                  .ret true { s with state := SState.beforeAuth, encryptor := some e2 } []
                else
                  .ret true { s with state := SState.newState, encryptor := some e2 } []
  | SState.beforeAuth =>
      if enc.subtype ≠ encSubtypeAuth then .exitRes
      else
        match s.encryptor with
        | none => .panicRes
        | some e =>
            if enc.authenticator = e.theirAuthenticator then
              .ret true { s with state := SState.newState } []
            else .exitRes
  | SState.established =>
      match s.newEncryptor with
      | none => .exitRes
      | some ne =>
          match setTheirPublicKey ecdh ne enc.publicKey with
          | none => .exitRes
          | some ne2 =>
              .ret true { s with encryptor := some ne2, newEncryptor := none } []
  | _ => .exitRes

/-- The dispatch part of DataIncoming (session.go), applied to the decrypted
and authenticated packet bytes. -/
def dispatchPacket (ecdh : List Nat → List Nat → Option (List Nat)) (cfg : Config)
    (s1 : Session) (packetData : List Nat) : InRes :=
  match Protocol.parse packetData with
  | none => .ret false s1 []
  | some pkt =>
      if s1.isPing ∧ pkt.packetType = typePING then
        match pkt.ping with
        | none => .panicRes
        | some pi => .ret true s1 [pi.data]
      else if pkt.packetType = typeSYN then
        match pkt.syn with
        | none => .panicRes
        | some syn =>
            let r := handleSYN s1 syn
            .ret r.2 r.1 []
      else if pkt.packetType = typeMSG then
        match pkt.msg with
        | none => .panicRes
        | some msg =>
            let r := handleMSG cfg s1 msg
            .ret r.sendRightAway r.session r.delivered
      else if pkt.packetType = typeFIN then
        let r := handleFIN s1
        .ret r.2 r.1 []
      else if pkt.packetType = typeENC then
        match pkt.enc with
        | none => .panicRes
        | some enc => handleENC ecdh s1 enc
      else .ret false s1 []

/-- DataIncoming (session.go): poll the driver, then (when encryption is
active) check the signature and decrypt — a failure at either step silently
discards the data and returns false — then parse and dispatch. -/
def dataIncoming (ecdh : List Nat → List Nat → Option (List Nat))
    (ks : List Nat → Nat → Nat → List Nat) (cfg : Config)
    (driverOut : Option (List Nat)) (s : Session) (data : List Nat) : InRes :=
  let s1 := pollDriver driverOut s
  if shouldEncrypt cfg s1 then
    match s1.encryptor with
    | none => .panicRes
    | some e =>
        match checkSignature e data with
        | none => .ret false s1 []
        | some d1 =>
            match decrypt ks e d1 with
            | none => .ret false s1 []
            | some (d2, _) => dispatchPacket ecdh cfg s1 d2
  else dispatchPacket ecdh cfg s1 data

/-- Result of the packet-construction part of GetOutgoing. -/
inductive BuildRes where
  | panicRes
  | built (pkt : Option Packet) (s : Session)
deriving DecidableEq, Repr

/-- The frame-selection part of GetOutgoing (session.go): builds at most one
packet for the current state.  `pid` stands for the random packet id,
`freshEnc` for the result of the crypto.NewEncryptor call made when a
renegotiation starts (`none` = key generation failed), `maxLength2` for the
remaining byte budget after any encryption reserve. -/
def buildPacket (cfg : Config) (pid : Nat) (freshEnc : Option Encryptor)
    (s : Session) (maxLength2 : Int) : BuildRes :=
  if s.isPing then
    let dataLen : Int := min (s.outgoingBuffer.length : Int) (maxLength2 - (getPINGSize : Int))
    if dataLen < 0 then .panicRes
    else .built (some (createPING pid s.id (s.outgoingBuffer.take dataLen.toNat))) s
  else
    match s.state with
    | SState.beforeInit =>
        match s.encryptor with
        | none => .panicRes
        | some e => .built (some (setEncInit (createENC pid s.id 0) (getMyPublicKey e))) s
    | SState.beforeAuth =>
        match s.encryptor with
        | none => .panicRes
        | some e => .built (some (setEncAuth (createENC pid s.id 0) e.myAuthenticator)) s
    | SState.newState =>
        let pkt := createSYN pid s.id s.mySeq 0
        let pkt := if s.isCommand then setIsCommand pkt else pkt
        let pkt := if s.name ≠ [] then setName pkt s.name else pkt
        .built (some pkt) s
    | SState.established =>
        let msgOrFin : BuildRes :=
          let dataLen : Int := min (s.outgoingBuffer.length : Int) (maxLength2 - (getMSGSize : Int))
          if dataLen < 0 then .panicRes
          else
            let data := s.outgoingBuffer.take dataLen.toNat
            if data.length = 0 ∧ s.isShutdown then
              .built (some (createFIN pid s.id (strBytes ("Stream closed")))) s
            else .built (some (createMSG pid s.id s.mySeq s.theirSeq data)) s
        if shouldEncrypt cfg s then
          match s.encryptor with
          | none => .panicRes
          | some e =>
              if shouldRenegotiate e then
                match s.newEncryptor with
                | some _ => .built none s
                | none =>
                    match freshEnc with
                    | none => .built none s
                    | some ne =>
                        .built (some (setEncInit (createENC pid s.id 0) (getMyPublicKey ne)))
                          { s with newEncryptor := some ne }
              else msgOrFin
        else msgOrFin

/-- Result of GetOutgoing: an os.Exit(1), a Go panic, or the emitted bytes
(`none` = no frame this call) with the updated session. -/
inductive GetOut where
  | exitRes
  | panicRes
  | emit (bytes : Option (List Nat)) (s : Session)
deriving DecidableEq, Repr

/-- GetOutgoing (session.go): poll the driver, enforce the transmit delay,
reserve 8 bytes for encryption overhead, build the state-appropriate frame,
serialize, then encrypt and sign when encryption is active. -/
def getOutgoing (ks : List Nat → Nat → Nat → List Nat) (cfg : Config)
    (pid : Nat) (freshEnc : Option Encryptor) (driverOut : Option (List Nat))
    (now : Nat) (s : Session) (maxLength : Int) : GetOut :=
  let s1 := pollDriver driverOut s
  if ¬ canTransmitYet cfg now s1 then .emit none s1
  else
    let maxLength2 := if shouldEncrypt cfg s1 then maxLength - 8 else maxLength
    if shouldEncrypt cfg s1 ∧ maxLength2 ≤ 0 then .exitRes
    else
      match buildPacket cfg pid freshEnc s1 maxLength2 with
      | .panicRes => .panicRes
      | .built none s2 => .emit none s2
      | .built (some pkt) s2 =>
          match toBytes pkt with
          | none => .emit none s2
          | some packetBytes =>
              if shouldEncrypt cfg s1 then
                match s2.encryptor with
                | none => .panicRes
                | some e =>
                    let (encBytes, e2) := encrypt ks e packetBytes
                    let signed := sign e2 encBytes
                    .emit (some signed)
                      { s2 with encryptor := some e2, lastTransmit := now,
                                missedTransmissions := s2.missedTransmissions + 1 }
              else
                .emit (some packetBytes)
                  { s2 with lastTransmit := now,
                            missedTransmissions := s2.missedTransmissions + 1 }

end SessionM

/-! ## DNS answer decoding (pkg/tunnel/dns/dns.go) -/

namespace DNS

/-- DNS record type codes. -/
def typeA : Nat := 1
def typeCNAME : Nat := 5
def typeMX : Nat := 15
def typeTXT : Nat := 16
def typeAAAA : Nat := 28

/-- One answer of a DNS response: record type and record data bytes (for
CNAME/MX the name bytes). -/
structure DNSAnswer where
  typ : Nat
  data : List Nat
deriving DecidableEq, Repr

/-- Value of an ASCII hex digit byte (encoding/hex accepts both cases). -/
def hexDigitVal (c : Nat) : Option Nat :=
  if 48 ≤ c ∧ c ≤ 57 then some (c - 48)
  else if 97 ≤ c ∧ c ≤ 102 then some (c - 87)
  else if 65 ≤ c ∧ c ≤ 70 then some (c - 55)
  else none

/-- hex.DecodeString: fails on an odd length or a non-hex byte. -/
def hexDecode : List Nat → Option (List Nat)
  | [] => some []
  | [_] => none
  | a :: b :: rest => do
      let x ← hexDigitVal a
      let y ← hexDigitVal b
      let r ← hexDecode rest
      pure ((x * 16 + y) :: r)

/-- decodeHex (dns.go): strips the label separators then hex-decodes. -/
def decodeHex (data : List Nat) : Option (List Nat) :=
  hexDecode (data.filter (· ≠ 46))

/-- strings.TrimSuffix. -/
def trimSuffix (s suf : List Nat) : List Nat :=
  if suf.isSuffixOf s then s.take (s.length - suf.length) else s

/-- strings.TrimPrefix. -/
def trimPre (s pre : List Nat) : List Nat :=
  if pre.isPrefixOf s then s.drop pre.length else s

/-- The fixed wildcard label used when no domain is configured. -/
def wildcard : List Nat := strBytes ("dnscat")

/-- removeDomain (dns.go). -/
def removeDomain (domain name : List Nat) : List Nat :=
  if domain ≠ [] then
    if ¬ domain.isSuffixOf name then []
    else if name = domain then []
    else trimSuffix name (strBytes (".") ++ domain)
  else
    if ¬ wildcard.isPrefixOf name then []
    else trimPre name (wildcard ++ strBytes ("."))

/-- sort.Slice of the answers by their first data byte (the Go code indexes
`Data[0]`, which panics on empty data; an empty answer is modelled as key 0).
sort.Slice is an unstable sort; insertion sort realizes it — the claims only
involve answer sets with pairwise distinct keys, where every sort agrees. -/
def insertAnswer (a : DNSAnswer) : List DNSAnswer → List DNSAnswer
  | [] => [a]
  | b :: rest =>
      if a.data.getD 0 0 ≤ b.data.getD 0 0 then a :: b :: rest
      else b :: insertAnswer a rest

def sortAnswers : List DNSAnswer → List DNSAnswer
  | [] => []
  | a :: rest => insertAnswer a (sortAnswers rest)

/-- decodeDNSResponse (dns.go), as a function of the configured domain and
the response's answer list.  For A (and AAAA) answers: sort by first data
byte, concatenate bytes 1..3 (1..15) of each answer of sufficient length,
read the first byte of the result as the payload length, and return that
many following bytes. -/
def decodeDNSResponse (domain : List Nat) (answers : List DNSAnswer) : Option (List Nat) :=
  match answers with
  | [] => none
  | answer :: _ =>
      if answer.typ = typeTXT then decodeHex answer.data
      else if answer.typ = typeCNAME ∨ answer.typ = typeMX then
        let name := removeDomain domain answer.data
        if name = [] then none else decodeHex name
      else if answer.typ = typeA then
        let sorted := sortAnswers answers
        let buf := sorted.foldl
          (fun acc a => if a.data.length ≥ 4 then acc ++ (a.data.drop 1).take 3 else acc) []
        if buf.length < 1 then none
        else
          let len := buf.getD 0 0
          if len > buf.length - 1 then none
          else some ((buf.drop 1).take len)
      else if answer.typ = typeAAAA then
        let sorted := sortAnswers answers
        let buf := sorted.foldl
          (fun acc a => if a.data.length ≥ 16 then acc ++ (a.data.drop 1).take 15 else acc) []
        if buf.length < 1 then none
        else
          let len := buf.getD 0 0
          if len > buf.length - 1 then none
          else some ((buf.drop 1).take len)
      else none

end DNS

/-! ## Concrete instances used by witnesses and counterexamples -/

/-- The spec's example A-record answer set. -/
def aRecordAnswers : List DNS.DNSAnswer :=
  [⟨DNS.typeA, [0x01, 0x00, 0x05, 0x00]⟩, ⟨DNS.typeA, [0x02, 0x41, 0x42, 0x43]⟩]

/-- A concrete stand-in for the external key agreement, returning a fixed
32-byte shared secret. -/
def c5ecdh : List Nat → List Nat → Option (List Nat) := fun _ _ => some (List.replicate 32 7)

/-- A concrete encryptor before the handshake. -/
def c5enc : Crypto.Encryptor :=
  { presharedSecret := strBytes ("hunter2"), myPrivateKey := [1],
    myPublicKey := 0x04 :: List.replicate 64 2 }

/-- The concrete peer public key. -/
def c5pub : List Nat := List.replicate 64 9

/-- The encryptor after the concrete handshake. -/
def c5res : Crypto.Encryptor := (Crypto.setTheirPublicKey c5ecdh c5enc c5pub).getD c5enc

/-- The ENC key-init frame built when a renegotiation starts: CreateENC then
SetEncInit with the fresh encryptor's public key. -/
def renegPkt (pid sid : Nat) (ne : Crypto.Encryptor) : Protocol.Packet :=
  Protocol.setEncInit (Protocol.createENC pid sid 0) (Crypto.getMyPublicKey ne)

/-- A trivial concrete keystream for witnesses. -/
def c6ks : List Nat → Nat → Nat → List Nat := fun _ _ l => List.replicate l 0

/-- A concrete active encryptor with an exhausted nonce. -/
def c6e : Crypto.Encryptor :=
  { presharedSecret := [], myPrivateKey := [5], myPublicKey := List.replicate 64 1,
    nonce := 0xFFF1 }

/-- A concrete fresh encryptor for the renegotiation. -/
def c6ne : Crypto.Encryptor :=
  { presharedSecret := [], myPrivateKey := [6], myPublicKey := List.replicate 64 2 }

/-- A concrete established encrypted session. -/
def c6s : SessionM.Session :=
  { id := 3, state := SessionM.SState.established, mySeq := 0, encryptor := some c6e }

/-- A concrete stand-in key agreement for the renegotiation swap. -/
def c6ecdh : List Nat → List Nat → Option (List Nat) := fun _ _ => some (List.replicate 32 3)

/-- The pending encryptor after the concrete swap. -/
def c6swapres : Crypto.Encryptor :=
  (Crypto.setTheirPublicKey c6ecdh c6ne (List.replicate 64 9)).getD c6ne

/-- A concrete established encrypted session with an empty outgoing buffer. -/
def c9s : SessionM.Session :=
  { id := 4, state := SessionM.SState.established, mySeq := 0, encryptor := some c6e }

/-- A complete length-prefixed command frame with the undefined kind 0x0007. -/
def unknownCmdFrame : List Nat := [0, 0, 0, 4, 0, 1, 0, 7]

/-- A concrete command packet with an unknown kind. -/
def c7pkt : Command.CmdPacket := { requestID := 1, commandID := 7, isRequest := true }

namespace Crypto

/-- The 6-byte truncated signature Sign computes for a message. -/
def sigOf (e : Encryptor) (data : List Nat) : List Nat :=
  (sha3_256 (e.myMacKey ++ data.take HeaderLength ++ data.drop HeaderLength)).take
    SignatureLength

/-- Flip bit `b` of byte `j` of a byte list. -/
def flipByte (l : List Nat) (j b : Nat) : List Nat :=
  l.set j ((l.getD j 0) ^^^ (1 <<< b))

/-- An encryptor carrying only a signing MAC key. -/
def mkSigner (k : List Nat) : Encryptor :=
  { presharedSecret := [], myPrivateKey := [], myPublicKey := [], myMacKey := k }

/-- An encryptor carrying only a peer MAC key for verification. -/
def mkVerifier (k : List Nat) : Encryptor :=
  { presharedSecret := [], myPrivateKey := [], myPublicKey := [], theirMacKey := k }

/-- The little-endian numeric value of a byte list. -/
def bytesVal : List Nat → Nat
  | [] => 0
  | b :: r => b + 256 * bytesVal r

/-- Seven little-endian bytes of a number below 2^56. -/
def byteEnc7 (n : Nat) : List Nat :=
  [n % 256, n / 256 % 256, n / 65536 % 256, n / 16777216 % 256,
   n / 4294967296 % 256, n / 1099511627776 % 256, n / 281474976710656 % 256]

/-- A 32-byte MAC key determined by a number below 2^56. -/
def keyOf (n : Nat) : List Nat := byteEnc7 n ++ List.replicate 25 0

end Crypto

/-- All-zero 32-byte MAC key. -/
def c4k1 : List Nat := List.replicate 32 0

/-- A MAC key differing from `c4k1` in its first byte. -/
def c4k2 : List Nat := 1 :: List.replicate 31 0

/-- Concrete signer with fixed write and MAC keys. -/
def c4e1 : Crypto.Encryptor :=
  { presharedSecret := [], myPrivateKey := [], myPublicKey := [],
    myWriteKey := List.replicate 32 5, myMacKey := List.replicate 32 6, nonce := 3 }

/-- Concrete verifier whose peer keys match the signer's keys. -/
def c4e2 : Crypto.Encryptor :=
  { presharedSecret := [], myPrivateKey := [], myPublicKey := [],
    theirWriteKey := List.replicate 32 5, theirMacKey := List.replicate 32 6 }

/-- A concrete established session with MySeq just below the wrap point. -/
def wrapSession : SessionM.Session :=
  { id := 1, state := SessionM.SState.established, theirSeq := 5, mySeq := 0xFFFE,
    outgoingBuffer := [1, 2, 3, 4, 5] }

/-- A concrete established session with a 3-byte outgoing buffer. -/
def smallBufSession : SessionM.Session :=
  { id := 1, state := SessionM.SState.established, theirSeq := 5, mySeq := 10,
    outgoingBuffer := [1, 2, 3] }

/-! ## Lemmas about SHA3-256 output shape -/

namespace Crypto

theorem sha3_256_length (m : List Nat) : (sha3_256 m).length = 32 := by
  simp [sha3_256]

theorem sha3_256_bytes_lt {m : List Nat} {b : Nat} (hb : b ∈ sha3_256 m) : b < 256 := by
  simp only [sha3_256, List.mem_map] at hb
  obtain ⟨i, _, hi⟩ := hb
  subst hi
  have h := Nat.and_lt_two_pow
    ((absorbBlocks (List.replicate 25 0) (sha3Pad m)).getD (i / 8) 0 >>> (8 * (i % 8)))
    (show 255 < 2 ^ 8 by norm_num)
  simpa using h

end Crypto

/-! ## Reader/writer lemmas used by the round-trip proofs -/

theorem read16_put16 (n : Nat) (hn : n < 65536) (r : List Nat) :
    read16 (put16 n ++ r) = some (n, r) := by
  have h : n / 256 % 256 * 256 + n % 256 = n := by omega
  simp [put16, read16, h]

theorem read16d_put16 (n : Nat) (hn : n < 65536) (r : List Nat) :
    read16d (put16 n ++ r) = (n, r) := by
  have h : n / 256 % 256 * 256 + n % 256 = n := by omega
  simp [put16, read16d, h]

theorem read32d_put32 (n : Nat) (hn : n < 4294967296) (r : List Nat) :
    read32d (put32 n ++ r) = (n, r) := by
  have h : ((n / 16777216 % 256 * 256 + n / 65536 % 256) * 256 + n / 256 % 256) * 256 +
      n % 256 = n := by omega
  simp [put32, read32d, h]

theorem read32v_put32 (n : Nat) (hn : n < 4294967296) (r : List Nat) :
    read32v (put32 n ++ r) = n := by
  simp only [put32, read32v, List.cons_append, List.getD_cons_zero, List.getD_cons_succ]
  omega

theorem readNT_append (s : List Nat) (hs : 0 ∉ s) (r : List Nat) :
    readNT (s ++ 0 :: r) = some (s, r) := by
  induction s with
  | nil => simp [readNT]
  | cons b rest ih =>
      simp only [List.mem_cons, not_or] at hs
      simp only [List.cons_append, readNT, List.append_eq]
      rw [if_neg (fun hb => hs.1 hb.symm), ih hs.2]

theorem readNTd_append (s : List Nat) (hs : 0 ∉ s) (r : List Nat) :
    readNTd (s ++ 0 :: r) = (s, r) := by
  induction s with
  | nil => simp [readNTd]
  | cons b rest ih =>
      simp only [List.mem_cons, not_or] at hs
      simp only [List.cons_append, readNTd, List.append_eq]
      rw [if_neg (fun hb => hs.1 hb.symm), ih hs.2]

theorem readArr_of_ne_nil (k : Nat) (l : List Nat) (h : l ≠ []) :
    readArr k l = some (padZero k (l.take k), l.drop k) := by
  cases l with
  | nil => exact absurd rfl h
  | cons b rest => rfl

theorem packedID_and_7FFF (rid : Nat) (h : rid < 32768) :
    (rid ||| 32768) &&& 32767 = rid := by
  refine Nat.eq_of_testBit_eq fun i => ?_
  simp only [Nat.testBit_and, Nat.testBit_or]
  rcases Nat.lt_or_ge i 15 with hi | hi
  · have h1 : (32767 : Nat).testBit i = true := by
      have e : (32767 : Nat) = 2 ^ 15 - 1 := by norm_num
      rw [e, Nat.testBit_two_pow_sub_one]
      simp [hi]
    have h2 : (32768 : Nat).testBit i = false := by
      have e : (32768 : Nat) = 2 ^ 15 := by norm_num
      rw [e, Nat.testBit_two_pow]
      simp
      omega
    simp [h1, h2]
  · have h1 : (32767 : Nat).testBit i = false := by
      have e : (32767 : Nat) = 2 ^ 15 - 1 := by norm_num
      rw [e, Nat.testBit_two_pow_sub_one]
      simp
      omega
    have h2 : rid.testBit i = false := by
      refine Nat.testBit_lt_two_pow ?_
      calc rid < 2 ^ 15 := by norm_num; omega
        _ ≤ 2 ^ i := Nat.pow_le_pow_right (by omega) hi
    simp [h1, h2]

theorem lt_and_7FFF (rid : Nat) (h : rid < 32768) : rid &&& 32767 = rid := by
  have e : (32767 : Nat) = 2 ^ 15 - 1 := by norm_num
  rw [e, Nat.and_pow_two_sub_one_eq_mod]
  omega

theorem lt_and_8000 (rid : Nat) (h : rid < 32768) : rid &&& 32768 = 0 := by
  have e : (32768 : Nat) = 2 ^ 15 := by norm_num
  rw [e, Nat.and_two_pow]
  have ht : rid.testBit 15 = false := Nat.testBit_lt_two_pow (by norm_num; omega)
  simp [ht]

theorem packedID_and_8000 (rid : Nat) (h : rid < 32768) :
    (rid ||| 32768) &&& 32768 ≠ 0 := by
  intro hz
  have ht : ((rid ||| 32768) &&& 32768).testBit 15 = true := by
    simp only [Nat.testBit_and, Nat.testBit_or]
    have h2 : (32768 : Nat).testBit 15 = true := by
      have e : (32768 : Nat) = 2 ^ 15 := by norm_num
      rw [e, Nat.testBit_two_pow]
      simp
    simp [h2]
  rw [hz] at ht
  simp at ht

/-! ## Claim C8: the A-record reassembly example -/

/-- C8 counterexample: on the spec's example input, decodeDNSResponse does
NOT return the payload 00 41 42 43 the spec declares. -/
theorem decodeA_example_not_as_specified :
    DNS.decodeDNSResponse [] aRecordAnswers ≠ some [0x00, 0x41, 0x42, 0x43] := by decide

/-- C8 amended: sorting the example answers by first data byte keeps their
order, the reassembled stream is 00 05 00 41 42 43, its first byte 0x00 is
read as the length prefix, and the decoded payload is therefore empty. -/
theorem decodeA_example_empty :
    DNS.sortAnswers aRecordAnswers = aRecordAnswers ∧
    (DNS.sortAnswers aRecordAnswers).foldl
      (fun acc a => if a.data.length ≥ 4 then acc ++ (a.data.drop 1).take 3 else acc) [] =
      [0x00, 0x05, 0x00, 0x41, 0x42, 0x43] ∧
    DNS.decodeDNSResponse [] aRecordAnswers = some [] := by decide

/-! ## Claim C10: truncated ENC bodies are zero-filled, not rejected -/

open Protocol in
/-- C10: a well-headed ENC frame whose key-init (auth) body is shorter than
64 (32) bytes but not empty parses successfully, with the missing bytes of
the fixed-size field read as zeros. -/
theorem parse_truncated_enc (pid sid flags : Nat) (pk au : List Nat)
    (hpid : pid < 65536) (hsid : sid < 65536) (hflags : flags < 65536)
    (hpk1 : 1 ≤ pk.length) (hpk2 : pk.length < 64)
    (hau1 : 1 ≤ au.length) (hau2 : au.length < 32) :
    parse (put16 pid ++ [typeENC] ++ put16 sid ++ put16 encSubtypeInit ++ put16 flags ++ pk) =
      some { packetID := pid, packetType := typeENC, sessionID := sid,
             enc := some ⟨encSubtypeInit, flags, pk ++ List.replicate (64 - pk.length) 0,
                          List.replicate 32 0⟩ } ∧
    parse (put16 pid ++ [typeENC] ++ put16 sid ++ put16 encSubtypeAuth ++ put16 flags ++ au) =
      some { packetID := pid, packetType := typeENC, sessionID := sid,
             enc := some ⟨encSubtypeAuth, flags, List.replicate 64 0,
                          au ++ List.replicate (32 - au.length) 0⟩ } := by
  constructor
  · have hne : pk ≠ [] := by
      intro h
      rw [h] at hpk1
      simp at hpk1
    have hlen : (put16 pid ++ [typeENC] ++ put16 sid ++ put16 encSubtypeInit ++
        put16 flags ++ pk).length = 9 + pk.length := by
      simp [put16, typeENC, encSubtypeInit]
      omega
    unfold parse
    rw [hlen]
    rw [if_neg (by omega), if_neg (by simp [MaxPacketSize]; omega)]
    simp only [List.append_assoc]
    rw [read16_put16 pid hpid]
    simp only [Option.bind_eq_bind, Option.some_bind, List.cons_append, List.nil_append, read8]
    rw [read16_put16 sid hsid]
    simp only [Option.some_bind, typeENC, typeSYN, typeMSG, typeFIN, typePING]
    norm_num
    rw [read16_put16 encSubtypeInit (by decide)]
    simp only [Option.some_bind]
    rw [read16_put16 flags hflags]
    simp only [Option.some_bind]
    simp only [if_true]
    rw [readArr_of_ne_nil 64 pk hne]
    simp only [Option.some_bind, padZero]
    rw [List.take_of_length_le (by omega)]
  · have hne : au ≠ [] := by
      intro h
      rw [h] at hau1
      simp at hau1
    have hlen : (put16 pid ++ [typeENC] ++ put16 sid ++ put16 encSubtypeAuth ++
        put16 flags ++ au).length = 9 + au.length := by
      simp [put16, typeENC, encSubtypeAuth]
      omega
    unfold parse
    rw [hlen]
    rw [if_neg (by omega), if_neg (by simp [MaxPacketSize]; omega)]
    simp only [List.append_assoc]
    rw [read16_put16 pid hpid]
    simp only [Option.bind_eq_bind, Option.some_bind, List.cons_append, List.nil_append, read8]
    rw [read16_put16 sid hsid]
    simp only [Option.some_bind, typeENC, typeSYN, typeMSG, typeFIN, typePING]
    norm_num
    rw [read16_put16 encSubtypeAuth (by decide)]
    simp only [Option.some_bind]
    rw [read16_put16 flags hflags]
    simp only [Option.some_bind, encSubtypeInit, encSubtypeAuth]
    norm_num
    rw [readArr_of_ne_nil 32 au hne]
    simp only [Option.some_bind, padZero]
    rw [List.take_of_length_le (by omega)]

open Protocol in
/-- C10 witness: a 3-byte key-init body and a 2-byte auth body are accepted
and zero-extended. -/
theorem parse_truncated_enc_witness :
    parse (put16 1 ++ [typeENC] ++ put16 2 ++ put16 encSubtypeInit ++ put16 0 ++ [9, 9, 9]) =
      some { packetID := 1, packetType := typeENC, sessionID := 2,
             enc := some ⟨encSubtypeInit, 0, [9, 9, 9] ++ List.replicate 61 0,
                          List.replicate 32 0⟩ } ∧
    parse (put16 1 ++ [typeENC] ++ put16 2 ++ put16 encSubtypeAuth ++ put16 0 ++ [8, 8]) =
      some { packetID := 1, packetType := typeENC, sessionID := 2,
             enc := some ⟨encSubtypeAuth, 0, List.replicate 64 0,
                          [8, 8] ++ List.replicate 30 0⟩ } := by
  have h := parse_truncated_enc 1 2 0 [9, 9, 9] [8, 8] (by decide) (by decide) (by decide)
    (by decide) (by decide) (by decide) (by decide)
  simpa using h

/-! ## Claims about sequence/acknowledgment handling (C2, C3) -/

open SessionM in
/-- C2: in state Established, a MSG whose sequence matches the tracked peer
sequence and whose acknowledgment acknowledges `N = (Ack - MySeq) mod 65536`
bytes with `N` at most the outgoing buffer length makes handleMSG set MySeq
to `(MySeq + N) mod 65536` and drop exactly the first `N` buffered bytes —
including when the addition wraps past 65536. -/
theorem handleMSG_ack_modular (cfg : Config) (s : Session) (msg : Protocol.MSGPacket)
    (hstate : s.state = SState.established) (hseq : msg.seq = s.theirSeq)
    (hmy : s.mySeq < 65536) (N : Nat) (hN : N = (msg.ack + 65536 - s.mySeq) % 65536)
    (hle : N ≤ s.outgoingBuffer.length) :
    (handleMSG cfg s msg).session.mySeq = (s.mySeq + N) % 65536 ∧
    (handleMSG cfg s msg).session.outgoingBuffer = s.outgoingBuffer.drop N := by
  subst hN
  unfold handleMSG
  simp only [hstate, hseq, ne_eq, not_true_eq_false, if_false, if_true, ite_true, ite_false,
    reduceIte, hle, if_pos]
  split_ifs with h1 h2 h3 h4 h5 <;>
    simp_all <;> omega

/-! ## Claim C5: key-material derivation -/

open Crypto in
/-- C5: after a successful SetTheirPublicKey, each of the four 32-byte
symmetric keys is the SHA3-256 hash of the shared secret followed by its
per-purpose label ("client_write_key", "client_mac_key", "server_write_key",
"server_mac_key"), and, when a pre-shared secret is configured, each
authenticator is the SHA3-256 hash of exactly the role string, the shared
secret, the local public key, the peer public key, and the pre-shared
secret, in that order. -/
theorem setTheirPublicKey_derivation (ecdh : List Nat → List Nat → Option (List Nat))
    (e : Encryptor) (pub : List Nat) (e2 : Encryptor)
    (h : setTheirPublicKey ecdh e pub = some e2) :
    e2.myWriteKey = sha3_256 (e2.sharedSecret ++ strBytes ("client_write_key")) ∧
    e2.myMacKey = sha3_256 (e2.sharedSecret ++ strBytes ("client_mac_key")) ∧
    e2.theirWriteKey = sha3_256 (e2.sharedSecret ++ strBytes ("server_write_key")) ∧
    e2.theirMacKey = sha3_256 (e2.sharedSecret ++ strBytes ("server_mac_key")) ∧
    (e.presharedSecret ≠ [] →
      e2.myAuthenticator = sha3_256 (strBytes ("client") ++ e2.sharedSecret ++
        getMyPublicKey e2 ++ pub ++ e.presharedSecret) ∧
      e2.theirAuthenticator = sha3_256 (strBytes ("server") ++ e2.sharedSecret ++
        getMyPublicKey e2 ++ pub ++ e.presharedSecret)) := by
  unfold setTheirPublicKey at h
  split at h
  · exact absurd h (by simp)
  · simp only [Option.some.injEq] at h
    subst h
    by_cases hps : e.presharedSecret = [] <;>
      simp [hps, makeKey, makeAuthenticator, getMyPublicKey]

open Crypto in
/-- C5 witness: the derivation equalities hold on the concrete handshake. -/
theorem setTheirPublicKey_derivation_witness :
    c5res.myWriteKey = sha3_256 (c5res.sharedSecret ++ strBytes ("client_write_key")) ∧
    c5res.myMacKey = sha3_256 (c5res.sharedSecret ++ strBytes ("client_mac_key")) ∧
    c5res.theirWriteKey = sha3_256 (c5res.sharedSecret ++ strBytes ("server_write_key")) ∧
    c5res.theirMacKey = sha3_256 (c5res.sharedSecret ++ strBytes ("server_mac_key")) ∧
    c5res.myAuthenticator = sha3_256 (strBytes ("client") ++ c5res.sharedSecret ++
      getMyPublicKey c5res ++ c5pub ++ c5enc.presharedSecret) ∧
    c5res.theirAuthenticator = sha3_256 (strBytes ("server") ++ c5res.sharedSecret ++
      getMyPublicKey c5res ++ c5pub ++ c5enc.presharedSecret) := by
  have h := setTheirPublicKey_derivation c5ecdh c5enc c5pub c5res rfl
  have hps : c5enc.presharedSecret ≠ [] := by decide
  exact ⟨h.1, h.2.1, h.2.2.1, h.2.2.2.1, (h.2.2.2.2 hps).1, (h.2.2.2.2 hps).2⟩

/-! ## Claim C6: renegotiation -/

open Protocol Crypto SessionM in
/-- C6: in state Established with encryption active and the send nonce past
0xFFF0, (i) with no pending encryptor the next GetOutgoing emits an ENC
key-init frame — built from the freshly generated encryptor's public key,
with no MSG body — and records the fresh encryptor as pending; (ii) with a
pending encryptor GetOutgoing emits no frame and starts no second
renegotiation (the pending encryptor is unchanged); (iii) when the peer's
key-init arrives, handleENC atomically swaps the pending encryptor in and
clears the pending slot. -/
theorem renegotiation_claim (ks : List Nat → Nat → Nat → List Nat) (cfg : Config)
    (pid : Nat) (ne : Encryptor) (now : Nat) (s : Session) (maxLength : Int)
    (e : Encryptor)
    (hisP : s.isPing = false) (hst : s.state = SState.established)
    (hdoE : cfg.doEncryption = true) (henc : s.encryptor = some e)
    (hn : e.nonce > 0xFFF0) (hdelay : now - s.lastTransmit > cfg.packetDelay)
    (hmax : maxLength ≥ 9) (hpend : s.newEncryptor = none) :
    ((renegPkt pid s.id ne).packetType = typeENC ∧
     (renegPkt pid s.id ne).enc = some ⟨encSubtypeInit, 0,
        padZero 64 ((getMyPublicKey ne).take 64), List.replicate 32 0⟩ ∧
     (renegPkt pid s.id ne).msg = none) ∧
    (getOutgoing ks cfg pid (some ne) (some []) now s maxLength =
      GetOut.emit
        (some (sign (encrypt ks e ((toBytes (renegPkt pid s.id ne)).getD [])).2
          (encrypt ks e ((toBytes (renegPkt pid s.id ne)).getD [])).1))
        { s with newEncryptor := some ne,
                 encryptor := some (encrypt ks e ((toBytes (renegPkt pid s.id ne)).getD [])).2,
                 lastTransmit := now,
                 missedTransmissions := s.missedTransmissions + 1 }) ∧
    (∀ fe pe, getOutgoing ks cfg pid fe (some []) now { s with newEncryptor := some pe }
        maxLength = GetOut.emit none { s with newEncryptor := some pe }) ∧
    (∀ (ecdh : List Nat → List Nat → Option (List Nat)) (pe pe2 : Encryptor)
        (encB : ENCPacket), setTheirPublicKey ecdh pe encB.publicKey = some pe2 →
      handleENC ecdh { s with newEncryptor := some pe } encB =
        InRes.ret true { s with newEncryptor := none, encryptor := some pe2 } []) := by
  have hpoll : pollDriver (some []) s = s := by simp [pollDriver]
  have hse : shouldEncrypt cfg s = true := by
    simp [shouldEncrypt, hdoE, hst]
  refine ⟨⟨rfl, ?_, rfl⟩, ?_, ?_, ?_⟩
  · simp [renegPkt, setEncInit, createENC]
  · unfold getOutgoing
    rw [hpoll]
    rw [if_neg (by simp [canTransmitYet]; omega)]
    rw [hse]
    simp only [if_true, true_and, reduceIte]
    rw [if_neg (by omega)]
    have hbuild : buildPacket cfg pid (some ne) s (maxLength - 8) =
        BuildRes.built (some (renegPkt pid s.id ne)) { s with newEncryptor := some ne } := by
      unfold buildPacket
      rw [hisP, hst]
      simp only [Bool.false_eq_true, if_false, reduceIte]
      rw [hse]
      simp only [if_true, reduceIte]
      rw [henc]
      have hsr : shouldRenegotiate e = true := by
        simp [shouldRenegotiate]
        omega
      simp only [hsr, if_true, reduceIte]
      rw [hpend]
      rfl
    rw [hbuild]
    have htb : ∃ bs, toBytes (renegPkt pid s.id ne) = some bs := by
      simp [renegPkt, setEncInit, createENC, toBytes, typeENC, typeSYN, typeMSG, typeFIN,
        typePING]
    obtain ⟨bs, hbs⟩ := htb
    simp only [hbs, Option.getD_some]
    rw [henc]
  · intro fe pe
    unfold getOutgoing
    have hpoll2 : pollDriver (some []) { s with newEncryptor := some pe } =
        { s with newEncryptor := some pe } := by simp [pollDriver]
    rw [hpoll2]
    rw [if_neg (by simp [canTransmitYet]; omega)]
    have hse2 : shouldEncrypt cfg { s with newEncryptor := some pe } = true := by
      simp [shouldEncrypt, hdoE, hst]
    rw [hse2]
    simp only [if_true, true_and, reduceIte]
    rw [if_neg (by omega)]
    have hbuild : buildPacket cfg pid fe { s with newEncryptor := some pe } (maxLength - 8) =
        BuildRes.built none { s with newEncryptor := some pe } := by
      unfold buildPacket
      rw [hisP, hst]
      simp only [Bool.false_eq_true, if_false, reduceIte]
      rw [if_pos (show shouldEncrypt cfg _ = true by simp [shouldEncrypt, hdoE])]
      rw [show ({ s with newEncryptor := some pe } : Session).encryptor = some e from henc]
      have hsr : shouldRenegotiate e = true := by
        simp [shouldRenegotiate]
        omega
      simp only [hsr, if_true, reduceIte]
    rw [hbuild]
  · intro ecdh pe pe2 encB hkey
    unfold handleENC
    rw [hst]
    simp only []
    rw [hkey]

open SessionM in
/-- C6 witness: on the concrete exhausted-nonce session the built frame is
ENC (not MSG), a pending renegotiation suppresses the frame, and the peer's
key-init swaps the pending encryptor in. -/
theorem renegotiation_claim_witness :
    (renegPkt 7 c6s.id c6ne).packetType = Protocol.typeENC ∧
    (renegPkt 7 c6s.id c6ne).msg = none ∧
    getOutgoing c6ks {} 7 none (some []) 2000 { c6s with newEncryptor := some c6ne } 100 =
      GetOut.emit none { c6s with newEncryptor := some c6ne } ∧
    handleENC c6ecdh { c6s with newEncryptor := some c6ne }
        ⟨0, 0, List.replicate 64 9, List.replicate 32 0⟩ =
      InRes.ret true { c6s with newEncryptor := none, encryptor := some c6swapres } [] := by
  have h := renegotiation_claim c6ks {} 7 c6ne 2000 c6s 100 c6e rfl rfl rfl rfl
    (by decide) (by decide) (by decide) rfl
  exact ⟨h.1.1, h.1.2.2, h.2.2.1 none c6ne,
    h.2.2.2 c6ecdh c6ne c6swapres ⟨0, 0, List.replicate 64 9, List.replicate 32 0⟩ rfl⟩

/-! ## Claim C9: silent discard on signature/parse failure -/

open SessionM in
/-- C9 counterexample: DataIncoming with bytes that fail the signature check
does NOT leave the whole session state unchanged: the driver poll it
performs first appends newly available driver bytes to the outgoing
buffer. -/
theorem dataIncoming_counterexample :
    dataIncoming c6ecdh c6ks {} (some [1, 2, 3]) c9s [] =
      InRes.ret false { c9s with outgoingBuffer := [1, 2, 3] } [] ∧
    ({ c9s with outgoingBuffer := [1, 2, 3] } : Session) ≠ c9s := by decide

open SessionM Crypto in
/-- C9 amended: for an encrypted session, when the driver poll yields no new
data, a DataIncoming call whose bytes fail signature verification — or
decrypt to bytes the outer-frame parser rejects — returns false and leaves
every session field exactly unchanged, delivering nothing to the driver.
In general the only state change of a discarded frame is the driver poll
performed at entry. -/
theorem dataIncoming_silent_discard (ecdh : List Nat → List Nat → Option (List Nat))
    (ks : List Nat → Nat → Nat → List Nat) (cfg : Config) (s : Session)
    (e : Encryptor) (data : List Nat)
    (hse : shouldEncrypt cfg s = true) (henc : s.encryptor = some e)
    (hfail : ∀ d1, checkSignature e data = some d1 →
      ∀ p, Protocol.parse (((decrypt ks e d1).getD ([], 0)).1) ≠ some p) :
    dataIncoming ecdh ks cfg (some []) s data = InRes.ret false s [] := by
  have hpoll : pollDriver (some []) s = s := by simp [pollDriver]
  unfold dataIncoming
  rw [hpoll]
  simp only [hse, if_true, reduceIte, henc]
  cases hsig : checkSignature e data with
  | none => rfl
  | some d1 =>
      dsimp only
      cases hdec : decrypt ks e d1 with
      | none => rfl
      | some pr =>
          obtain ⟨d2, n⟩ := pr
          have hparse : Protocol.parse d2 = none := by
            cases hp : Protocol.parse d2 with
            | none => rfl
            | some p =>
                exfalso
                refine hfail d1 hsig p ?_
                rw [hdec]
                simpa using hp
          simp only [dispatchPacket, hparse]

open SessionM in
/-- C9 witness: on the concrete session, a short (unsigned) byte string is
discarded with the session returned exactly as it was. -/
theorem dataIncoming_silent_discard_witness :
    dataIncoming c6ecdh c6ks {} (some []) c9s [] = InRes.ret false c9s [] :=
  dataIncoming_silent_discard c6ecdh c6ks {} c9s c6e [] (by decide) rfl
    (fun d1 h => by
      have hn : Crypto.checkSignature c6e [] = none := by decide
      rw [hn] at h
      exact absurd h (by simp))

/-! ## Claim C7: unknown command kinds -/

open Command in
/-- C7 counterexample: the unknown-kind frame fails to decode, and
processPackets drops it without emitting anything — even with a handler
that would answer every packet with the not-implemented error response, the
outgoing buffer stays empty, so no error response is produced. -/
theorem cmd_unknown_counterexample :
    parsePacket [0, 1, 0, 7] = none ∧
    processPackets (fun p => some (handleUnknownCommand p)) 8 unknownCmdFrame [] =
      ([], []) := by decide

open Command in
/-- C7 amended: a well-formed length-prefixed frame with an unknown 16-bit
command kind fails decoding with an error, and processPackets drops it —
whatever the packet handler is, the outgoing data is unchanged, so no error
response is emitted on the wire.  The driver's handlePacket default branch
does build a "Not implemented yet!" response with the fixed status 0xFFFF,
but it is unreachable from decoded frames. -/
theorem cmd_unknown_dropped (handle : CmdPacket → Option CmdPacket) (fuel : Nat)
    (outgoing : List Nat) (packed cmdID : Nat) (body : List Nat) (p : CmdPacket)
    (hp : packed < 65536) (hc : cmdID < 65536)
    (hunk : knownCommandID cmdID = false)
    (hlen : body.length + 8 < 4294967296) :
    parsePacket (put16 packed ++ put16 cmdID ++ body) = none ∧
    processPackets handle (fuel + 1)
        (put32 (body.length + 4) ++ put16 packed ++ put16 cmdID ++ body) outgoing =
      ([], outgoing) ∧
    (handleUnknownCommand p).commandID = commandError ∧
    (handleUnknownCommand p).errorResponse =
      some (0xFFFF, strBytes ("Not implemented yet!")) := by
  simp only [knownCommandID, Bool.or_eq_false_iff, decide_eq_false_iff_not] at hunk
  obtain ⟨⟨⟨⟨⟨⟨⟨⟨⟨⟨h0, h1⟩, h2⟩, h3⟩, h4⟩, h5⟩, h6⟩, h7⟩, h8⟩, h9⟩, h10⟩ := hunk
  have hparse : parsePacket (put16 packed ++ put16 cmdID ++ body) = none := by
    unfold parsePacket
    rw [if_neg (by simp [put16])]
    simp only [List.append_assoc]
    rw [read16d_put16 packed hp, read16d_put16 cmdID hc]
    simp only [if_neg h0, if_neg h1, if_neg h2, if_neg h3, if_neg h4, if_neg h5, if_neg h6,
      if_neg h7, if_neg h8, if_neg h9, if_neg h10]
  refine ⟨hparse, ?_, rfl, rfl⟩
  unfold processPackets
  have hrp : readPacket
      (put32 (body.length + 4) ++ put16 packed ++ put16 cmdID ++ body) =
      ReadPacketResult.fail [] := by
    unfold readPacket
    rw [if_neg (by simp [put32, put16])]
    have htake : (put32 (body.length + 4) ++ put16 packed ++ put16 cmdID ++ body).take 4 =
        put32 (body.length + 4) ++ ([] : List Nat) := by
      simp [put32, put16, List.take]
    rw [htake, read32v_put32 (body.length + 4) (by omega)]
    rw [if_neg (by omega)]
    rw [if_neg (by simp [put32, put16])]
    have hdrop : (put32 (body.length + 4) ++ put16 packed ++ put16 cmdID ++ body).drop 4 =
        put16 packed ++ put16 cmdID ++ body := by
      simp [put32, put16]
    rw [hdrop]
    rw [List.take_of_length_le (by simp [put16])]
    rw [hparse]
    have hdropAll : (put32 (body.length + 4) ++ put16 packed ++ put16 cmdID ++ body).drop
        (4 + (body.length + 4)) = [] := by
      apply List.drop_eq_nil_of_le
      simp [put32, put16]
      omega
    rw [hdropAll]
  rw [hrp]

open Command in
/-- C7 witness: concrete instantiation of the amended claim. -/
theorem cmd_unknown_dropped_witness :
    parsePacket (put16 1 ++ put16 7 ++ []) = none ∧
    processPackets (fun p => some (handleUnknownCommand p)) 1
        (put32 4 ++ put16 1 ++ put16 7 ++ []) [9] = ([], [9]) ∧
    (handleUnknownCommand c7pkt).commandID = commandError ∧
    (handleUnknownCommand c7pkt).errorResponse =
      some (0xFFFF, strBytes ("Not implemented yet!")) := by
  have h := cmd_unknown_dropped (fun p => some (handleUnknownCommand p)) 0 [9] 1 7 [] c7pkt
    (by decide) (by decide) (by decide) (by decide)
  simpa using h

/-! ## Claim C4: crypto round trips -/

namespace Crypto

theorem byteEnc7_inj {m n : Nat} (hm : m < 281474976710656 * 256)
    (hn : n < 281474976710656 * 256) (h : byteEnc7 m = byteEnc7 n) : m = n := by
  simp only [byteEnc7, List.cons.injEq, and_true] at h
  omega

theorem keyOf_inj {m n : Nat} (hm : m < 281474976710656 * 256)
    (hn : n < 281474976710656 * 256) (h : keyOf m = keyOf n) : m = n := by
  apply byteEnc7_inj hm hn
  have h7 := congrArg (List.take 7) h
  simp only [keyOf] at h7
  rwa [List.take_left' (by simp [byteEnc7]), List.take_left' (by simp [byteEnc7])] at h7

theorem bytesVal_lt : ∀ (l : List Nat), (∀ x ∈ l, x < 256) → bytesVal l < 256 ^ l.length := by
  intro l
  induction l with
  | nil => intro _; simp [bytesVal]
  | cons b r ih =>
      intro hb
      have h1 : b < 256 := hb b (by simp)
      have h2 : bytesVal r < 256 ^ r.length := ih fun x hx => hb x (by simp [hx])
      simp only [bytesVal, List.length_cons, pow_succ]
      calc b + 256 * bytesVal r < 256 + 256 * bytesVal r := by omega
        _ ≤ 256 * (bytesVal r + 1) := by ring_nf; omega
        _ ≤ 256 * 256 ^ r.length := by
            have : bytesVal r + 1 ≤ 256 ^ r.length := h2
            exact Nat.mul_le_mul_left 256 this
        _ = 256 ^ r.length * 256 := by ring

theorem bytesVal_inj : ∀ (l1 l2 : List Nat), l1.length = l2.length →
    (∀ x ∈ l1, x < 256) → (∀ x ∈ l2, x < 256) → bytesVal l1 = bytesVal l2 → l1 = l2 := by
  intro l1
  induction l1 with
  | nil =>
      intro l2 hl _ _ _
      exact (List.length_eq_zero.mp hl.symm).symm ▸ rfl
  | cons b1 r1 ih =>
      intro l2 hl hb1 hb2 hv
      cases l2 with
      | nil => simp at hl
      | cons b2 r2 =>
          have h1 : b1 < 256 := hb1 b1 (by simp)
          have h2 : b2 < 256 := hb2 b2 (by simp)
          simp only [bytesVal] at hv
          have hb : b1 = b2 := by omega
          have hr : bytesVal r1 = bytesVal r2 := by omega
          have := ih r2 (by simpa using hl) (fun x hx => hb1 x (by simp [hx]))
            (fun x hx => hb2 x (by simp [hx])) hr
          simp [hb, this]

theorem zipWith_xor_cancel (b k : List Nat) (h : k.length = b.length) :
    List.zipWith (· ^^^ ·) (List.zipWith (· ^^^ ·) b k) k = b := by
  induction b generalizing k with
  | nil => simp
  | cons x xs ih =>
      cases k with
      | nil => simp at h
      | cons y ys =>
          simp only [List.zipWith_cons_cons, Nat.xor_cancel_right, List.cons.injEq,
            true_and]
          exact ih ys (by simpa using h)

theorem sign_eq (e : Encryptor) (data : List Nat) (hlen : data.length ≥ 5) :
    sign e data = data.take 5 ++ sigOf e data ++ data.drop 5 := by
  unfold sign sigOf
  rw [if_neg (by simp [HeaderLength]; omega)]
  simp [HeaderLength, SignatureLength]

theorem sigOf_length (e : Encryptor) (data : List Nat) : (sigOf e data).length = 6 := by
  simp [sigOf, sha3_256_length, SignatureLength]

theorem checkSignature_split (e : Encryptor) (header sigB body : List Nat)
    (hh : header.length = 5) (hs : sigB.length = 6) :
    checkSignature e (header ++ sigB ++ body) =
      if sigB = (sha3_256 (e.theirMacKey ++ header ++ body)).take 6 then
        some (header ++ body)
      else none := by
  unfold checkSignature
  have h1 : (header ++ sigB ++ body).take HeaderLength = header := by
    rw [show HeaderLength = header.length by simp [HeaderLength, hh]]
    simp only [List.append_assoc]
    exact List.take_left header (sigB ++ body)
  have h2 : (header ++ sigB ++ body).drop HeaderLength = sigB ++ body := by
    rw [show HeaderLength = header.length by simp [HeaderLength, hh]]
    simp only [List.append_assoc]
    exact List.drop_left header (sigB ++ body)
  have h3 : (header ++ sigB ++ body).drop (HeaderLength + SignatureLength) = body := by
    rw [show HeaderLength + SignatureLength = (header ++ sigB).length by
      simp [HeaderLength, SignatureLength, hh, hs]]
    exact List.drop_left (header ++ sigB) body
  rw [if_neg (by simp [HeaderLength, SignatureLength, hh, hs]; omega)]
  rw [h1, h2, h3]
  rw [show (sigB ++ body).take SignatureLength = sigB by
    rw [show SignatureLength = sigB.length by simp [SignatureLength, hs]]
    exact List.take_left sigB body]
  simp [SignatureLength]

theorem flipByte_ne (l : List Nat) (j b : Nat) (hj : j < l.length) :
    flipByte l j b ≠ l := by
  intro h
  have h1 : (flipByte l j b).getD j 0 = (l.getD j 0) ^^^ (1 <<< b) := by
    unfold flipByte
    rw [List.getD_eq_getElem _ _ (by simpa using hj)]
    rw [List.getElem_set_self (by simpa using hj)]
  rw [h] at h1
  have h2 : (1 <<< b : Nat) = 0 := by
    have h3 := congrArg (fun z => (l.getD j 0) ^^^ z) h1
    simpa [← Nat.xor_assoc] using h3.symm
  simp [Nat.one_shiftLeft] at h2

theorem decrypt_encrypt (ks : List Nat → Nat → Nat → List Nat)
    (hks : ∀ k n l, (ks k n l).length = l) (e1 e2 : Encryptor) (data : List Nat)
    (hlen : data.length ≥ 5) (hkey : e2.theirWriteKey = e1.myWriteKey)
    (hn : e1.nonce < 65536) :
    decrypt ks e2 (encrypt ks e1 data).1 = some (data, e1.nonce) := by
  unfold encrypt
  rw [if_neg (by simp [HeaderLength]; omega)]
  dsimp only
  unfold decrypt
  have hhl : (data.take HeaderLength).length = 5 := by
    simp [HeaderLength]
    omega
  have hencl : (List.zipWith (· ^^^ ·) (data.drop HeaderLength)
      (ks e1.myWriteKey e1.nonce (data.drop HeaderLength).length)).length =
      (data.drop HeaderLength).length := by
    simp [hks]
  have hlen2 : (data.take HeaderLength ++ put16 e1.nonce ++
      List.zipWith (· ^^^ ·) (data.drop HeaderLength)
        (ks e1.myWriteKey e1.nonce (data.drop HeaderLength).length)).length =
      7 + (data.drop HeaderLength).length := by
    rw [List.length_append, List.length_append, hhl, hencl]
    simp only [put16, List.length_cons, List.length_nil]
  rw [if_neg (by rw [hlen2]; simp [HeaderLength])]
  have htake : (data.take HeaderLength ++ put16 e1.nonce ++
      List.zipWith (· ^^^ ·) (data.drop HeaderLength)
        (ks e1.myWriteKey e1.nonce (data.drop HeaderLength).length)).take HeaderLength =
      data.take HeaderLength := by
    simp only [List.append_assoc]
    exact List.take_left' (by rw [hhl]; simp [HeaderLength])
  have hg5 : (data.take HeaderLength ++ put16 e1.nonce ++
      List.zipWith (· ^^^ ·) (data.drop HeaderLength)
        (ks e1.myWriteKey e1.nonce (data.drop HeaderLength).length)).getD HeaderLength 0 =
      e1.nonce / 256 % 256 := by
    simp only [List.append_assoc]
    rw [List.getD_append_right _ _ _ _ (by rw [hhl]; simp [HeaderLength])]
    rw [hhl]
    simp [HeaderLength, put16]
  have hg6 : (data.take HeaderLength ++ put16 e1.nonce ++
      List.zipWith (· ^^^ ·) (data.drop HeaderLength)
        (ks e1.myWriteKey e1.nonce (data.drop HeaderLength).length)).getD
        (HeaderLength + 1) 0 = e1.nonce % 256 := by
    simp only [List.append_assoc]
    rw [List.getD_append_right _ _ _ _ (by rw [hhl]; simp [HeaderLength])]
    rw [hhl]
    simp [HeaderLength, put16]
  have hdrop : (data.take HeaderLength ++ put16 e1.nonce ++
      List.zipWith (· ^^^ ·) (data.drop HeaderLength)
        (ks e1.myWriteKey e1.nonce (data.drop HeaderLength).length)).drop
        (HeaderLength + 2) =
      List.zipWith (· ^^^ ·) (data.drop HeaderLength)
        (ks e1.myWriteKey e1.nonce (data.drop HeaderLength).length) := by
    exact List.drop_left' (by rw [List.length_append, hhl]; simp [put16, HeaderLength])
  rw [htake, hg5, hg6, hdrop]
  have hnv : e1.nonce / 256 % 256 * 256 + e1.nonce % 256 = e1.nonce := by omega
  rw [hnv]
  rw [hkey]
  dsimp only
  rw [hencl]
  rw [zipWith_xor_cancel _ _ (hks _ _ _)]
  rw [List.take_append_drop]

end Crypto

open Crypto in
/-- C4 counterexample: "verifying with a different MAC key fails" is not
true of every pair of distinct keys — the signature is a 6-byte (48-bit)
truncation, so by pigeonhole there exist two distinct MAC keys whose
truncated digests of the same message coincide, and verification under the
second key accepts a message signed under the first. -/
theorem checkSignature_different_key_collision :
    ∃ k1 k2 : List Nat, k1 ≠ k2 ∧
      checkSignature (mkVerifier k2) (sign (mkSigner k1) (List.replicate 5 0)) =
        some (List.replicate 5 0) := by
  have hcard : Fintype.card (Fin (2 ^ 48)) < Fintype.card (Fin (2 ^ 48 + 1)) := by
    rw [Fintype.card_fin, Fintype.card_fin]
    omega
  have hsigbytes : ∀ (k : List Nat) (x : Nat),
      x ∈ sigOf (mkSigner k) (List.replicate 5 0) → x < 256 := by
    intro k x hx
    exact sha3_256_bytes_lt (List.mem_of_mem_take hx)
  have hsigbound : ∀ (k : List Nat),
      bytesVal (sigOf (mkSigner k) (List.replicate 5 0)) < 2 ^ 48 := by
    intro k
    have h1 := bytesVal_lt (sigOf (mkSigner k) (List.replicate 5 0)) (hsigbytes k)
    rw [sigOf_length] at h1
    calc bytesVal (sigOf (mkSigner k) (List.replicate 5 0)) < 256 ^ 6 := h1
      _ = 2 ^ 48 := by norm_num
  obtain ⟨x, y, hxy, hf⟩ := Fintype.exists_ne_map_eq_of_card_lt
    (fun (i : Fin (2 ^ 48 + 1)) =>
      (⟨bytesVal (sigOf (mkSigner (keyOf i.val)) (List.replicate 5 0)),
        hsigbound (keyOf i.val)⟩ : Fin (2 ^ 48))) hcard
  have hvx : x.val < 281474976710656 * 256 := by
    have := x.isLt
    omega
  have hvy : y.val < 281474976710656 * 256 := by
    have := y.isLt
    omega
  have hsig : sigOf (mkSigner (keyOf x.val)) (List.replicate 5 0) =
      sigOf (mkSigner (keyOf y.val)) (List.replicate 5 0) := by
    have hv := congrArg Fin.val hf
    simp only at hv
    exact bytesVal_inj _ _ (by rw [sigOf_length, sigOf_length])
      (hsigbytes (keyOf x.val)) (hsigbytes (keyOf y.val)) hv
  refine ⟨keyOf x.val, keyOf y.val, ?_, ?_⟩
  · intro h
    exact hxy (Fin.ext (keyOf_inj hvx hvy h))
  · rw [sign_eq _ _ (by simp)]
    rw [checkSignature_split _ _ _ _ (by simp) (sigOf_length _ _)]
    rw [if_pos]
    · rw [List.take_append_drop]
    · rw [hsig]
      simp [sigOf, mkSigner, mkVerifier, HeaderLength, SignatureLength]

set_option maxRecDepth 100000 in
open Crypto in
/-- C4 (amended): encrypting then decrypting with an engine whose peer write
key is the sender's write key (reading the embedded big-endian nonce)
returns the original bytes; signing then verifying with the same MAC key
succeeds and returns the unsigned bytes; verification fails after flipping
any single bit of the 6-byte truncated signature; and verification with a
different MAC key fails whenever the two keys' truncated digests differ —
shown here for explicit distinct keys (the universal form is impossible:
6-byte truncated digests must collide for some key pairs). -/
theorem crypto_roundtrip_claim :
    (∀ (ks : List Nat → Nat → Nat → List Nat), (∀ k n l, (ks k n l).length = l) →
      ∀ (e1 e2 : Encryptor) (data : List Nat), data.length ≥ 5 →
        e2.theirWriteKey = e1.myWriteKey → e1.nonce < 65536 →
        decrypt ks e2 (encrypt ks e1 data).1 = some (data, e1.nonce)) ∧
    (∀ (e1 e2 : Encryptor) (data : List Nat), data.length ≥ 5 →
      e2.theirMacKey = e1.myMacKey → checkSignature e2 (sign e1 data) = some data) ∧
    (∀ (e1 e2 : Encryptor) (data : List Nat) (j b : Nat), data.length ≥ 5 →
      e2.theirMacKey = e1.myMacKey → j < 6 → b < 8 →
      checkSignature e2 (data.take 5 ++ flipByte (sigOf e1 data) j b ++ data.drop 5) =
        none) ∧
    (c4k1 ≠ c4k2 ∧
      checkSignature (mkVerifier c4k2) (sign (mkSigner c4k1) [1, 2, 3, 4, 5]) = none) := by
  refine ⟨decrypt_encrypt, ?_, ?_, ?_, ?_⟩
  · intro e1 e2 data hlen hkey
    rw [sign_eq e1 data hlen]
    rw [checkSignature_split e2 _ _ _ (by simp; omega) (sigOf_length e1 data)]
    rw [hkey]
    rw [if_pos (by simp [sigOf, HeaderLength, SignatureLength])]
    rw [List.take_append_drop]
  · intro e1 e2 data j b hlen hkey hj hb
    rw [checkSignature_split e2 _ _ _ (by simp; omega) (by simp [flipByte, sigOf_length])]
    rw [hkey]
    rw [show (sha3_256 (e1.myMacKey ++ data.take 5 ++ data.drop 5)).take 6 =
        sigOf e1 data by simp [sigOf, HeaderLength, SignatureLength]]
    rw [if_neg (flipByte_ne _ j b (by rw [sigOf_length]; omega))]
  · decide
  · decide

open Crypto in
/-- C4 witness: the round trips at concrete engines, message and bit
position. -/
theorem crypto_roundtrip_claim_witness :
    decrypt c6ks c4e2 (encrypt c6ks c4e1 [1, 2, 3, 4, 5]).1 =
      some ([1, 2, 3, 4, 5], c4e1.nonce) ∧
    checkSignature c4e2 (sign c4e1 [1, 2, 3, 4, 5]) = some [1, 2, 3, 4, 5] ∧
    checkSignature c4e2 (List.take 5 [1, 2, 3, 4, 5] ++
      flipByte (sigOf c4e1 [1, 2, 3, 4, 5]) 0 0 ++ List.drop 5 [1, 2, 3, 4, 5]) = none := by
  refine ⟨?_, ?_, ?_⟩
  · exact crypto_roundtrip_claim.1 c6ks (fun k n l => by simp [c6ks]) c4e1 c4e2
      [1, 2, 3, 4, 5] (by decide) (by decide) (by decide)
  · exact crypto_roundtrip_claim.2.1 c4e1 c4e2 [1, 2, 3, 4, 5] (by decide) (by decide)
  · exact crypto_roundtrip_claim.2.2.1 c4e1 c4e2 [1, 2, 3, 4, 5] 0 0 (by decide)
      (by decide) (by decide) (by decide)

open SessionM in
/-- C2 witness: with MySeq = 0xFFFE and four bytes acknowledged the sequence
wraps to 2 and exactly four buffered bytes are retired. -/
theorem handleMSG_ack_modular_witness :
    (handleMSG {} wrapSession ⟨5, 2, [9]⟩).session.mySeq = 2 ∧
    (handleMSG {} wrapSession ⟨5, 2, [9]⟩).session.outgoingBuffer = [5] := by
  have h := handleMSG_ack_modular {} wrapSession ⟨5, 2, [9]⟩ rfl rfl (by decide) 4
    (by decide) (by decide)
  simpa using h

open SessionM in
/-- C3: in state Established, a MSG whose sequence matches but whose
acknowledgment implies more acknowledged bytes than are buffered is rejected
atomically: the session (buffer, MySeq, TheirSeq, state, all fields) is
returned unchanged, nothing is delivered to the driver, and no immediate
retransmission is requested. -/
theorem handleMSG_badack_atomic (cfg : Config) (s : Session) (msg : Protocol.MSGPacket)
    (hstate : s.state = SState.established) (hseq : msg.seq = s.theirSeq)
    (hgt : (msg.ack + 65536 - s.mySeq) % 65536 > s.outgoingBuffer.length) :
    handleMSG cfg s msg = ⟨s, [], false⟩ := by
  unfold handleMSG
  simp only [hstate, hseq, ne_eq, not_true_eq_false, if_false, ite_false, reduceIte, if_true,
    ite_true]
  split_ifs with h1 <;> first | rfl | omega

open SessionM in
/-- C3 witness: a MSG acknowledging 4 bytes against a 3-byte buffer is
rejected with no state change. -/
theorem handleMSG_badack_atomic_witness :
    handleMSG {} smallBufSession ⟨5, 14, [9]⟩ = ⟨smallBufSession, [], false⟩ :=
  handleMSG_badack_atomic {} smallBufSession ⟨5, 14, [9]⟩ rfl rfl (by decide)

/-! ## Claim C1: the round-trip law -/

namespace Protocol

theorem syn_roundtrip (pid sid : Nat) (syn : SYNPacket)
    (hpid : pid < 65536) (hsid : sid < 65536) (hseq : syn.seq < 65536)
    (hopts : syn.options < 65536)
    (hname : if syn.options &&& optName ≠ 0 then (0 : Nat) ∉ syn.name else syn.name = [])
    (bytes : List Nat)
    (hb : toBytes { packetID := pid, packetType := typeSYN, sessionID := sid,
                    syn := some syn } = some bytes)
    (hlen : bytes.length ≤ 1024) :
    parse bytes = some { packetID := pid, packetType := typeSYN, sessionID := sid,
                         syn := some syn } := by
  obtain ⟨seq, opts, name⟩ := syn
  dsimp only at hseq hopts hname
  unfold toBytes at hb
  dsimp only at hb
  rw [if_pos rfl] at hb
  by_cases hopt : opts &&& optName ≠ 0
  · rw [if_pos hopt] at hname
    rw [if_pos hopt] at hb
    injection hb with hb
    subst hb
    unfold parse
    rw [if_neg (by simp [put16, put8, writeNT]), if_neg (by simpa [MaxPacketSize] using hlen)]
    simp only [List.append_assoc, put8, typeSYN]
    norm_num
    rw [read16_put16 pid hpid]
    simp only [Option.bind_eq_bind, Option.some_bind, List.cons_append, List.nil_append, read8]
    rw [read16_put16 sid hsid]
    simp only [Option.some_bind]
    norm_num
    rw [read16_put16 seq hseq]
    simp only [Option.some_bind]
    rw [read16_put16 opts hopts]
    simp only [Option.some_bind]
    rw [if_neg hopt]
    rw [show (writeNT name : List Nat) = name ++ 0 :: [] from rfl]
    rw [readNT_append name hname]
    rfl
  · rw [if_neg hopt] at hname
    rw [if_neg hopt] at hb
    injection hb with hb
    subst hb
    unfold parse
    rw [if_neg (by simp [put16, put8]), if_neg (by simpa [MaxPacketSize] using hlen)]
    simp only [List.append_assoc, put8, typeSYN]
    norm_num
    rw [read16_put16 pid hpid]
    simp only [Option.bind_eq_bind, Option.some_bind, List.cons_append, List.nil_append, read8]
    rw [read16_put16 sid hsid]
    simp only [Option.some_bind]
    norm_num
    rw [read16_put16 seq hseq]
    simp only [Option.some_bind]
    rw [show (put16 opts : List Nat) = put16 opts ++ [] by simp]
    rw [read16_put16 opts hopts]
    simp only [Option.some_bind]
    rw [if_pos (by push_neg at hopt; exact hopt)]
    rw [hname]

theorem msg_roundtrip (pid sid : Nat) (msg : MSGPacket)
    (hpid : pid < 65536) (hsid : sid < 65536) (hseq : msg.seq < 65536)
    (hack : msg.ack < 65536) (bytes : List Nat)
    (hb : toBytes { packetID := pid, packetType := typeMSG, sessionID := sid,
                    msg := some msg } = some bytes)
    (hlen : bytes.length ≤ 1024) :
    parse bytes = some { packetID := pid, packetType := typeMSG, sessionID := sid,
                         msg := some msg } := by
  obtain ⟨seq, ack, data⟩ := msg
  dsimp only at hseq hack
  unfold toBytes at hb
  dsimp only at hb
  rw [if_neg (by norm_num [typeMSG, typeSYN]), if_pos rfl] at hb
  injection hb with hb
  subst hb
  unfold parse
  rw [if_neg (by simp [put16, put8]), if_neg (by simpa [MaxPacketSize] using hlen)]
  simp only [List.append_assoc, put8, typeSYN, typeMSG, typeFIN, typePING, typeENC]
  norm_num
  rw [read16_put16 pid hpid]
  simp only [Option.bind_eq_bind, Option.some_bind, List.cons_append, List.nil_append, read8]
  rw [read16_put16 sid hsid]
  simp only [Option.some_bind]
  norm_num
  rw [read16_put16 seq hseq]
  simp only [Option.some_bind]
  rw [read16_put16 ack hack]
  simp only [Option.some_bind]

theorem fin_roundtrip (pid sid : Nat) (fin : FINPacket)
    (hpid : pid < 65536) (hsid : sid < 65536) (hreason : (0 : Nat) ∉ fin.reason)
    (bytes : List Nat)
    (hb : toBytes { packetID := pid, packetType := typeFIN, sessionID := sid,
                    fin := some fin } = some bytes)
    (hlen : bytes.length ≤ 1024) :
    parse bytes = some { packetID := pid, packetType := typeFIN, sessionID := sid,
                         fin := some fin } := by
  obtain ⟨reason⟩ := fin
  dsimp only at hreason
  unfold toBytes at hb
  dsimp only at hb
  rw [if_neg (by norm_num [typeFIN, typeSYN]), if_neg (by norm_num [typeFIN, typeMSG]),
    if_pos rfl] at hb
  injection hb with hb
  subst hb
  unfold parse
  rw [if_neg (by simp [put16, put8, writeNT]), if_neg (by simpa [MaxPacketSize] using hlen)]
  simp only [List.append_assoc, put8, typeSYN, typeMSG, typeFIN, typePING, typeENC]
  norm_num
  rw [read16_put16 pid hpid]
  simp only [Option.bind_eq_bind, Option.some_bind, List.cons_append, List.nil_append, read8]
  rw [read16_put16 sid hsid]
  simp only [Option.some_bind]
  norm_num
  rw [show (writeNT reason : List Nat) = reason ++ 0 :: [] from rfl]
  rw [readNT_append reason hreason]
  rfl

theorem ping_roundtrip (pid sid : Nat) (ping : PINGPacket)
    (hpid : pid < 65536) (hsid : sid < 65536) (hdata : (0 : Nat) ∉ ping.data)
    (bytes : List Nat)
    (hb : toBytes { packetID := pid, packetType := typePING, sessionID := sid,
                    ping := some ping } = some bytes)
    (hlen : bytes.length ≤ 1024) :
    parse bytes = some { packetID := pid, packetType := typePING, sessionID := sid,
                         ping := some ping } := by
  obtain ⟨data⟩ := ping
  dsimp only at hdata
  unfold toBytes at hb
  dsimp only at hb
  rw [if_neg (by norm_num [typePING, typeSYN]), if_neg (by norm_num [typePING, typeMSG]),
    if_neg (by norm_num [typePING, typeFIN]), if_pos rfl] at hb
  injection hb with hb
  subst hb
  unfold parse
  rw [if_neg (by simp [put16, put8, writeNT]), if_neg (by simpa [MaxPacketSize] using hlen)]
  simp only [List.append_assoc, put8, typeSYN, typeMSG, typeFIN, typePING, typeENC]
  norm_num
  rw [read16_put16 pid hpid]
  simp only [Option.bind_eq_bind, Option.some_bind, List.cons_append, List.nil_append, read8]
  rw [read16_put16 sid hsid]
  simp only [Option.some_bind]
  norm_num
  rw [show (writeNT data : List Nat) = data ++ 0 :: [] from rfl]
  rw [readNT_append data hdata]
  rfl

theorem enc_roundtrip (pid sid : Nat) (enc : ENCPacket)
    (hpid : pid < 65536) (hsid : sid < 65536) (hflags : enc.flags < 65536)
    (hsub : (enc.subtype = encSubtypeInit ∧ enc.publicKey.length = 64 ∧
        enc.authenticator = List.replicate 32 0) ∨
      (enc.subtype = encSubtypeAuth ∧ enc.authenticator.length = 32 ∧
        enc.publicKey = List.replicate 64 0))
    (bytes : List Nat)
    (hb : toBytes { packetID := pid, packetType := typeENC, sessionID := sid,
                    enc := some enc } = some bytes)
    (hlen : bytes.length ≤ 1024) :
    parse bytes = some { packetID := pid, packetType := typeENC, sessionID := sid,
                         enc := some enc } := by
  obtain ⟨subtype, flags, pk, auth⟩ := enc
  dsimp only at hflags hsub
  unfold toBytes at hb
  dsimp only at hb
  rw [if_neg (by norm_num [typeENC, typeSYN]), if_neg (by norm_num [typeENC, typeMSG]),
    if_neg (by norm_num [typeENC, typeFIN]), if_neg (by norm_num [typeENC, typePING]),
    if_pos rfl] at hb
  rcases hsub with ⟨hst, hpk, hauth⟩ | ⟨hst, hauth, hpk⟩
  · subst hst
    rw [if_pos rfl] at hb
    injection hb with hb
    subst hb
    subst hauth
    unfold parse
    rw [if_neg (by simp [put16, put8]), if_neg (by simpa [MaxPacketSize] using hlen)]
    simp only [List.append_assoc, put8, typeSYN, typeMSG, typeFIN, typePING, typeENC]
    norm_num
    rw [read16_put16 pid hpid]
    simp only [Option.bind_eq_bind, Option.some_bind, List.cons_append, List.nil_append, read8]
    rw [read16_put16 sid hsid]
    simp only [Option.some_bind]
    norm_num
    rw [read16_put16 encSubtypeInit (by decide)]
    simp only [Option.some_bind]
    rw [read16_put16 flags hflags]
    simp only [Option.some_bind]
    simp only [if_true]
    have hne : pk ≠ [] := by
      intro h
      rw [h] at hpk
      simp at hpk
    rw [readArr_of_ne_nil 64 pk hne]
    simp only [Option.some_bind, padZero]
    rw [List.take_of_length_le (by omega)]
    rw [show 64 - pk.length = 0 by omega]
    simp
  · subst hst
    rw [if_neg (by norm_num [encSubtypeAuth, encSubtypeInit]), if_pos rfl] at hb
    injection hb with hb
    subst hb
    subst hpk
    unfold parse
    rw [if_neg (by simp [put16, put8]), if_neg (by simpa [MaxPacketSize] using hlen)]
    simp only [List.append_assoc, put8, typeSYN, typeMSG, typeFIN, typePING, typeENC]
    norm_num
    rw [read16_put16 pid hpid]
    simp only [Option.bind_eq_bind, Option.some_bind, List.cons_append, List.nil_append, read8]
    rw [read16_put16 sid hsid]
    simp only [Option.some_bind]
    norm_num
    rw [read16_put16 encSubtypeAuth (by decide)]
    simp only [Option.some_bind]
    rw [read16_put16 flags hflags]
    simp only [Option.some_bind]
    simp only [if_true]
    have hne : auth ≠ [] := by
      intro h
      rw [h] at hauth
      simp at hauth
    rw [readArr_of_ne_nil 32 auth hne]
    simp only [Option.some_bind, padZero]
    rw [List.take_of_length_le (by omega)]
    rw [show 32 - auth.length = 0 by omega]
    simp
    intro h
    exact absurd h (by decide)

theorem parse_toBytes_wf (p : Packet) (bytes : List Nat) (hwf : wfPacket p)
    (hb : toBytes p = some bytes) (hlen : bytes.length ≤ 1024) :
    parse bytes = some p := by
  obtain ⟨hpid, hsid, hcase⟩ := hwf
  rcases hcase with ⟨syn, hp, h1, h2, h3, h4⟩ | ⟨msg, hp, h1, h2⟩ | ⟨fin, hp, h1⟩ |
    ⟨ping, hp, h1⟩ | ⟨enc, hp, h1, h2⟩
  · rw [hp] at hb ⊢
    refine syn_roundtrip p.packetID p.sessionID syn hpid hsid h1 h2 ?_ bytes hb hlen
    by_cases hc : syn.options &&& optName ≠ 0
    · rw [if_pos hc]
      exact h3 hc
    · rw [if_neg hc]
      push_neg at hc
      exact h4 hc
  · rw [hp] at hb ⊢
    exact msg_roundtrip p.packetID p.sessionID msg hpid hsid h1 h2 bytes hb hlen
  · rw [hp] at hb ⊢
    exact fin_roundtrip p.packetID p.sessionID fin hpid hsid h1 bytes hb hlen
  · rw [hp] at hb ⊢
    exact ping_roundtrip p.packetID p.sessionID ping hpid hsid h1 bytes hb hlen
  · rw [hp] at hb ⊢
    exact enc_roundtrip p.packetID p.sessionID enc hpid hsid h1 h2 bytes hb hlen

end Protocol

namespace Command

theorem readPacket_framed (body : List Nat) (h : body.length + 4 < 4294967296) :
    readPacket (put32 (body.length % 4294967296) ++ body) =
      match parsePacket body with
      | none => ReadPacketResult.fail []
      | some p => ReadPacketResult.ok p [] := by
  have hm : body.length % 4294967296 = body.length := Nat.mod_eq_of_lt (by omega)
  rw [hm]
  unfold readPacket
  rw [if_neg (by simp [put32])]
  rw [List.take_left' (by simp [put32])]
  rw [show (put32 body.length : List Nat) = put32 body.length ++ [] by simp]
  rw [read32v_put32 body.length (by omega)]
  rw [if_neg (by omega)]
  rw [if_neg (by simp [put32])]
  rw [List.append_nil]
  rw [show List.drop 4 (put32 body.length ++ body) = body from
    List.drop_left' (by simp [put32])]
  rw [List.take_length]
  rw [show (4 : Nat) + body.length = (put32 body.length ++ body).length by simp [put32]; omega]
  rw [List.drop_length]

theorem or32768_lt (rid : Nat) (h : rid < 32768) : rid ||| 32768 < 65536 := by
  have h1 : rid < 2 ^ 16 := by omega
  have h2 : (32768 : Nat) < 2 ^ 16 := by norm_num
  have := Nat.or_lt_two_pow h1 h2
  omega

theorem parsePacket_wf (q : CmdPacket) (hwf : wfCmd q) :
    parsePacket (cmdBodyBytes q) = some q := by
  obtain ⟨hrid, hcase⟩ := hwf
  rcases hcase with ⟨s, hs, hq⟩ | ⟨s, hs, hq⟩ | ⟨s, hs, hq⟩ | ⟨sid, hsid, hq⟩ | ⟨name, cmd, hname, hcmd, hq⟩ | ⟨sid, hsid, hq⟩ | ⟨fn, hfn, hq⟩ | ⟨d, hq⟩ | ⟨fn, d, hfn, hq⟩ | hq | hq | hq | ⟨d, hd, hq⟩ | hq | ⟨opts, host, port, hopts, hhost, hport, hq⟩ | ⟨tid, htid, hq⟩ | ⟨tid, d, htid, hq⟩ | hq | ⟨tid, reason, htid, hreason, hq⟩ | hq | ⟨st, reason, hst, hreason, hq⟩ | ⟨st, reason, hst, hreason, hq⟩
  · rw [hq] at hrid ⊢
    dsimp only at hrid
    unfold cmdBodyBytes
    dsimp only
    rw [show ((q.requestID &&& 32767) ||| (if (true : Bool) then 0 else 32768)) = q.requestID by
      simp [lt_and_7FFF q.requestID hrid]]
    rw [if_pos rfl]
    unfold parsePacket
    rw [if_neg (by simp [put16])]
    simp only [List.append_assoc]
    rw [read16d_put16 q.requestID (by omega)]
    dsimp only
    rw [read16d_put16 commandPing (by decide)]
    dsimp only
    rw [if_pos rfl]
    rw [show (writeNT s : List Nat) = s ++ 0 :: [] from rfl]
    rw [readNTd_append s hs]
    rw [if_pos (lt_and_8000 q.requestID hrid)]
    simp [lt_and_7FFF q.requestID hrid, lt_and_8000 q.requestID hrid]
  · rw [hq] at hrid ⊢
    dsimp only at hrid
    unfold cmdBodyBytes
    dsimp only
    rw [show ((q.requestID &&& 32767) ||| (if (false : Bool) then 0 else 32768)) =
        q.requestID ||| 32768 by simp [lt_and_7FFF q.requestID hrid]]
    rw [if_pos rfl]
    unfold parsePacket
    rw [if_neg (by simp [put16])]
    simp only [List.append_assoc]
    rw [read16d_put16 (q.requestID ||| 32768) (or32768_lt q.requestID hrid)]
    dsimp only
    rw [read16d_put16 commandPing (by decide)]
    dsimp only
    rw [if_pos rfl]
    rw [show (writeNT s : List Nat) = s ++ 0 :: [] from rfl]
    rw [readNTd_append s hs]
    rw [if_neg (packedID_and_8000 q.requestID hrid)]
    simp [packedID_and_7FFF q.requestID hrid, packedID_and_8000 q.requestID hrid]
  · rw [hq] at hrid ⊢
    dsimp only at hrid
    unfold cmdBodyBytes
    dsimp only
    rw [show ((q.requestID &&& 32767) ||| (if (true : Bool) then 0 else 32768)) = q.requestID by
      simp [lt_and_7FFF q.requestID hrid]]
    rw [if_neg (by decide)]
    rw [if_pos rfl]
    unfold parsePacket
    rw [if_neg (by simp [put16])]
    simp only [List.append_assoc]
    rw [read16d_put16 q.requestID (by omega)]
    dsimp only
    rw [read16d_put16 commandShell (by decide)]
    dsimp only
    rw [if_neg (by decide)]
    rw [if_pos rfl]
    rw [if_pos (lt_and_8000 q.requestID hrid)]
    rw [show (writeNT s : List Nat) = s ++ 0 :: [] from rfl]
    rw [readNTd_append s hs]
    simp [lt_and_7FFF q.requestID hrid, lt_and_8000 q.requestID hrid]
  · rw [hq] at hrid ⊢
    dsimp only at hrid
    unfold cmdBodyBytes
    dsimp only
    rw [show ((q.requestID &&& 32767) ||| (if (false : Bool) then 0 else 32768)) =
        q.requestID ||| 32768 by simp [lt_and_7FFF q.requestID hrid]]
    rw [if_neg (by decide)]
    rw [if_pos rfl]
    unfold parsePacket
    rw [if_neg (by simp [put16])]
    simp only [List.append_assoc]
    rw [read16d_put16 (q.requestID ||| 32768) (or32768_lt q.requestID hrid)]
    dsimp only
    rw [read16d_put16 commandShell (by decide)]
    dsimp only
    rw [if_neg (by decide)]
    rw [if_pos rfl]
    rw [if_neg (packedID_and_8000 q.requestID hrid)]
    rw [show (put16 sid : List Nat) = put16 sid ++ [] by simp]
    rw [read16d_put16 sid hsid]
    dsimp only
    simp [packedID_and_7FFF q.requestID hrid, packedID_and_8000 q.requestID hrid]
  · rw [hq] at hrid ⊢
    dsimp only at hrid
    unfold cmdBodyBytes
    dsimp only
    rw [show ((q.requestID &&& 32767) ||| (if (true : Bool) then 0 else 32768)) = q.requestID by
      simp [lt_and_7FFF q.requestID hrid]]
    rw [if_neg (by decide)]
    rw [if_neg (by decide)]
    rw [if_pos rfl]
    unfold parsePacket
    rw [if_neg (by simp [put16])]
    simp only [List.append_assoc]
    rw [read16d_put16 q.requestID (by omega)]
    dsimp only
    rw [read16d_put16 commandExec (by decide)]
    dsimp only
    rw [if_neg (by decide)]
    rw [if_neg (by decide)]
    rw [if_pos rfl]
    rw [if_pos (lt_and_8000 q.requestID hrid)]
    rw [show (writeNT name ++ writeNT cmd : List Nat) = name ++ 0 :: writeNT cmd by simp [writeNT]]
    rw [readNTd_append name hname]
    dsimp only
    rw [show (writeNT cmd : List Nat) = cmd ++ 0 :: [] from rfl]
    rw [readNTd_append cmd hcmd]
    simp [lt_and_7FFF q.requestID hrid, lt_and_8000 q.requestID hrid]
  · rw [hq] at hrid ⊢
    dsimp only at hrid
    unfold cmdBodyBytes
    dsimp only
    rw [show ((q.requestID &&& 32767) ||| (if (false : Bool) then 0 else 32768)) =
        q.requestID ||| 32768 by simp [lt_and_7FFF q.requestID hrid]]
    rw [if_neg (by decide)]
    rw [if_neg (by decide)]
    rw [if_pos rfl]
    unfold parsePacket
    rw [if_neg (by simp [put16])]
    simp only [List.append_assoc]
    rw [read16d_put16 (q.requestID ||| 32768) (or32768_lt q.requestID hrid)]
    dsimp only
    rw [read16d_put16 commandExec (by decide)]
    dsimp only
    rw [if_neg (by decide)]
    rw [if_neg (by decide)]
    rw [if_pos rfl]
    rw [if_neg (packedID_and_8000 q.requestID hrid)]
    rw [show (put16 sid : List Nat) = put16 sid ++ [] by simp]
    rw [read16d_put16 sid hsid]
    dsimp only
    simp [packedID_and_7FFF q.requestID hrid, packedID_and_8000 q.requestID hrid]
  · rw [hq] at hrid ⊢
    dsimp only at hrid
    unfold cmdBodyBytes
    dsimp only
    rw [show ((q.requestID &&& 32767) ||| (if (true : Bool) then 0 else 32768)) = q.requestID by
      simp [lt_and_7FFF q.requestID hrid]]
    rw [if_neg (by decide)]
    rw [if_neg (by decide)]
    rw [if_neg (by decide)]
    rw [if_pos rfl]
    unfold parsePacket
    rw [if_neg (by simp [put16])]
    simp only [List.append_assoc]
    rw [read16d_put16 q.requestID (by omega)]
    dsimp only
    rw [read16d_put16 commandDownload (by decide)]
    dsimp only
    rw [if_neg (by decide)]
    rw [if_neg (by decide)]
    rw [if_neg (by decide)]
    rw [if_pos rfl]
    rw [if_pos (lt_and_8000 q.requestID hrid)]
    rw [show (writeNT fn : List Nat) = fn ++ 0 :: [] from rfl]
    rw [readNTd_append fn hfn]
    simp [lt_and_7FFF q.requestID hrid, lt_and_8000 q.requestID hrid]
  · rw [hq] at hrid ⊢
    dsimp only at hrid
    unfold cmdBodyBytes
    dsimp only
    rw [show ((q.requestID &&& 32767) ||| (if (false : Bool) then 0 else 32768)) =
        q.requestID ||| 32768 by simp [lt_and_7FFF q.requestID hrid]]
    rw [if_neg (by decide)]
    rw [if_neg (by decide)]
    rw [if_neg (by decide)]
    rw [if_pos rfl]
    unfold parsePacket
    rw [if_neg (by simp [put16])]
    simp only [List.append_assoc]
    rw [read16d_put16 (q.requestID ||| 32768) (or32768_lt q.requestID hrid)]
    dsimp only
    rw [read16d_put16 commandDownload (by decide)]
    dsimp only
    rw [if_neg (by decide)]
    rw [if_neg (by decide)]
    rw [if_neg (by decide)]
    rw [if_pos rfl]
    rw [if_neg (packedID_and_8000 q.requestID hrid)]
    simp [packedID_and_7FFF q.requestID hrid, packedID_and_8000 q.requestID hrid]
  · rw [hq] at hrid ⊢
    dsimp only at hrid
    unfold cmdBodyBytes
    dsimp only
    rw [show ((q.requestID &&& 32767) ||| (if (true : Bool) then 0 else 32768)) = q.requestID by
      simp [lt_and_7FFF q.requestID hrid]]
    rw [if_neg (by decide)]
    rw [if_neg (by decide)]
    rw [if_neg (by decide)]
    rw [if_neg (by decide)]
    rw [if_pos rfl]
    unfold parsePacket
    rw [if_neg (by simp [put16])]
    simp only [List.append_assoc]
    rw [read16d_put16 q.requestID (by omega)]
    dsimp only
    rw [read16d_put16 commandUpload (by decide)]
    dsimp only
    rw [if_neg (by decide)]
    rw [if_neg (by decide)]
    rw [if_neg (by decide)]
    rw [if_neg (by decide)]
    rw [if_pos rfl]
    rw [if_pos (lt_and_8000 q.requestID hrid)]
    rw [show (writeNT fn ++ d : List Nat) = fn ++ 0 :: d by simp [writeNT]]
    rw [readNTd_append fn hfn]
    simp [lt_and_7FFF q.requestID hrid, lt_and_8000 q.requestID hrid]
  · rw [hq] at hrid ⊢
    dsimp only at hrid
    unfold cmdBodyBytes
    dsimp only
    rw [show ((q.requestID &&& 32767) ||| (if (false : Bool) then 0 else 32768)) =
        q.requestID ||| 32768 by simp [lt_and_7FFF q.requestID hrid]]
    rw [if_neg (by decide)]
    rw [if_neg (by decide)]
    rw [if_neg (by decide)]
    rw [if_neg (by decide)]
    rw [if_pos rfl]
    unfold parsePacket
    rw [if_neg (by simp [put16])]
    simp only [List.append_assoc]
    rw [read16d_put16 (q.requestID ||| 32768) (or32768_lt q.requestID hrid)]
    dsimp only
    rw [read16d_put16 commandUpload (by decide)]
    dsimp only
    rw [if_neg (by decide)]
    rw [if_neg (by decide)]
    rw [if_neg (by decide)]
    rw [if_neg (by decide)]
    rw [if_pos rfl]
    rw [if_neg (packedID_and_8000 q.requestID hrid)]
    simp [packedID_and_7FFF q.requestID hrid, packedID_and_8000 q.requestID hrid]
  · rw [hq] at hrid ⊢
    dsimp only at hrid
    unfold cmdBodyBytes
    dsimp only
    rw [show ((q.requestID &&& 32767) ||| (if (true : Bool) then 0 else 32768)) = q.requestID by
      simp [lt_and_7FFF q.requestID hrid]]
    rw [if_neg (by decide)]
    rw [if_neg (by decide)]
    rw [if_neg (by decide)]
    rw [if_neg (by decide)]
    rw [if_neg (by decide)]
    rw [if_pos rfl]
    unfold parsePacket
    rw [if_neg (by simp [put16])]
    simp only [List.append_assoc]
    rw [read16d_put16 q.requestID (by omega)]
    dsimp only
    rw [read16d_put16 commandShutdown (by decide)]
    dsimp only
    rw [if_neg (by decide)]
    rw [if_neg (by decide)]
    rw [if_neg (by decide)]
    rw [if_neg (by decide)]
    rw [if_neg (by decide)]
    rw [if_pos rfl]
    rw [if_pos (lt_and_8000 q.requestID hrid)]
    simp [lt_and_7FFF q.requestID hrid, lt_and_8000 q.requestID hrid]
  · rw [hq] at hrid ⊢
    dsimp only at hrid
    unfold cmdBodyBytes
    dsimp only
    rw [show ((q.requestID &&& 32767) ||| (if (false : Bool) then 0 else 32768)) =
        q.requestID ||| 32768 by simp [lt_and_7FFF q.requestID hrid]]
    rw [if_neg (by decide)]
    rw [if_neg (by decide)]
    rw [if_neg (by decide)]
    rw [if_neg (by decide)]
    rw [if_neg (by decide)]
    rw [if_pos rfl]
    unfold parsePacket
    rw [if_neg (by simp [put16])]
    simp only [List.append_assoc]
    rw [read16d_put16 (q.requestID ||| 32768) (or32768_lt q.requestID hrid)]
    dsimp only
    rw [read16d_put16 commandShutdown (by decide)]
    dsimp only
    rw [if_neg (by decide)]
    rw [if_neg (by decide)]
    rw [if_neg (by decide)]
    rw [if_neg (by decide)]
    rw [if_neg (by decide)]
    rw [if_pos rfl]
    rw [if_neg (packedID_and_8000 q.requestID hrid)]
    simp [packedID_and_7FFF q.requestID hrid, packedID_and_8000 q.requestID hrid]
  · rw [hq] at hrid ⊢
    dsimp only at hrid
    unfold cmdBodyBytes
    dsimp only
    rw [show ((q.requestID &&& 32767) ||| (if (true : Bool) then 0 else 32768)) = q.requestID by
      simp [lt_and_7FFF q.requestID hrid]]
    rw [if_neg (by decide)]
    rw [if_neg (by decide)]
    rw [if_neg (by decide)]
    rw [if_neg (by decide)]
    rw [if_neg (by decide)]
    rw [if_neg (by decide)]
    rw [if_pos rfl]
    unfold parsePacket
    rw [if_neg (by simp [put16])]
    simp only [List.append_assoc]
    rw [read16d_put16 q.requestID (by omega)]
    dsimp only
    rw [read16d_put16 commandDelay (by decide)]
    dsimp only
    rw [if_neg (by decide)]
    rw [if_neg (by decide)]
    rw [if_neg (by decide)]
    rw [if_neg (by decide)]
    rw [if_neg (by decide)]
    rw [if_neg (by decide)]
    rw [if_pos rfl]
    rw [if_pos (lt_and_8000 q.requestID hrid)]
    rw [show (put32 d : List Nat) = put32 d ++ [] by simp]
    rw [read32d_put32 d hd]
    dsimp only
    simp [lt_and_7FFF q.requestID hrid, lt_and_8000 q.requestID hrid]
  · rw [hq] at hrid ⊢
    dsimp only at hrid
    unfold cmdBodyBytes
    dsimp only
    rw [show ((q.requestID &&& 32767) ||| (if (false : Bool) then 0 else 32768)) =
        q.requestID ||| 32768 by simp [lt_and_7FFF q.requestID hrid]]
    rw [if_neg (by decide)]
    rw [if_neg (by decide)]
    rw [if_neg (by decide)]
    rw [if_neg (by decide)]
    rw [if_neg (by decide)]
    rw [if_neg (by decide)]
    rw [if_pos rfl]
    unfold parsePacket
    rw [if_neg (by simp [put16])]
    simp only [List.append_assoc]
    rw [read16d_put16 (q.requestID ||| 32768) (or32768_lt q.requestID hrid)]
    dsimp only
    rw [read16d_put16 commandDelay (by decide)]
    dsimp only
    rw [if_neg (by decide)]
    rw [if_neg (by decide)]
    rw [if_neg (by decide)]
    rw [if_neg (by decide)]
    rw [if_neg (by decide)]
    rw [if_neg (by decide)]
    rw [if_pos rfl]
    rw [if_neg (packedID_and_8000 q.requestID hrid)]
    simp [packedID_and_7FFF q.requestID hrid, packedID_and_8000 q.requestID hrid]
  · rw [hq] at hrid ⊢
    dsimp only at hrid
    unfold cmdBodyBytes
    dsimp only
    rw [show ((q.requestID &&& 32767) ||| (if (true : Bool) then 0 else 32768)) = q.requestID by
      simp [lt_and_7FFF q.requestID hrid]]
    rw [if_neg (by decide)]
    rw [if_neg (by decide)]
    rw [if_neg (by decide)]
    rw [if_neg (by decide)]
    rw [if_neg (by decide)]
    rw [if_neg (by decide)]
    rw [if_neg (by decide)]
    rw [if_pos rfl]
    unfold parsePacket
    rw [if_neg (by simp [put16])]
    simp only [List.append_assoc]
    rw [read16d_put16 q.requestID (by omega)]
    dsimp only
    rw [read16d_put16 tunnelConnect (by decide)]
    dsimp only
    rw [if_neg (by decide)]
    rw [if_neg (by decide)]
    rw [if_neg (by decide)]
    rw [if_neg (by decide)]
    rw [if_neg (by decide)]
    rw [if_neg (by decide)]
    rw [if_neg (by decide)]
    rw [if_pos rfl]
    rw [if_pos (lt_and_8000 q.requestID hrid)]
    rw [read32d_put32 opts hopts]
    dsimp only
    rw [show (writeNT host ++ put16 port : List Nat) = host ++ 0 :: put16 port by simp [writeNT]]
    rw [readNTd_append host hhost]
    dsimp only
    rw [show (put16 port : List Nat) = put16 port ++ [] by simp]
    rw [read16d_put16 port hport]
    dsimp only
    simp [lt_and_7FFF q.requestID hrid, lt_and_8000 q.requestID hrid]
  · rw [hq] at hrid ⊢
    dsimp only at hrid
    unfold cmdBodyBytes
    dsimp only
    rw [show ((q.requestID &&& 32767) ||| (if (false : Bool) then 0 else 32768)) =
        q.requestID ||| 32768 by simp [lt_and_7FFF q.requestID hrid]]
    rw [if_neg (by decide)]
    rw [if_neg (by decide)]
    rw [if_neg (by decide)]
    rw [if_neg (by decide)]
    rw [if_neg (by decide)]
    rw [if_neg (by decide)]
    rw [if_neg (by decide)]
    rw [if_pos rfl]
    unfold parsePacket
    rw [if_neg (by simp [put16])]
    simp only [List.append_assoc]
    rw [read16d_put16 (q.requestID ||| 32768) (or32768_lt q.requestID hrid)]
    dsimp only
    rw [read16d_put16 tunnelConnect (by decide)]
    dsimp only
    rw [if_neg (by decide)]
    rw [if_neg (by decide)]
    rw [if_neg (by decide)]
    rw [if_neg (by decide)]
    rw [if_neg (by decide)]
    rw [if_neg (by decide)]
    rw [if_neg (by decide)]
    rw [if_pos rfl]
    rw [if_neg (packedID_and_8000 q.requestID hrid)]
    rw [show (put32 tid : List Nat) = put32 tid ++ [] by simp]
    rw [read32d_put32 tid htid]
    dsimp only
    simp [packedID_and_7FFF q.requestID hrid, packedID_and_8000 q.requestID hrid]
  · rw [hq] at hrid ⊢
    dsimp only at hrid
    unfold cmdBodyBytes
    dsimp only
    rw [show ((q.requestID &&& 32767) ||| (if (true : Bool) then 0 else 32768)) = q.requestID by
      simp [lt_and_7FFF q.requestID hrid]]
    rw [if_neg (by decide)]
    rw [if_neg (by decide)]
    rw [if_neg (by decide)]
    rw [if_neg (by decide)]
    rw [if_neg (by decide)]
    rw [if_neg (by decide)]
    rw [if_neg (by decide)]
    rw [if_neg (by decide)]
    rw [if_pos rfl]
    unfold parsePacket
    rw [if_neg (by simp [put16])]
    simp only [List.append_assoc]
    rw [read16d_put16 q.requestID (by omega)]
    dsimp only
    rw [read16d_put16 tunnelData (by decide)]
    dsimp only
    rw [if_neg (by decide)]
    rw [if_neg (by decide)]
    rw [if_neg (by decide)]
    rw [if_neg (by decide)]
    rw [if_neg (by decide)]
    rw [if_neg (by decide)]
    rw [if_neg (by decide)]
    rw [if_neg (by decide)]
    rw [if_pos rfl]
    rw [if_pos (lt_and_8000 q.requestID hrid)]
    rw [read32d_put32 tid htid]
    dsimp only
    simp [lt_and_7FFF q.requestID hrid, lt_and_8000 q.requestID hrid]
  · rw [hq] at hrid ⊢
    dsimp only at hrid
    unfold cmdBodyBytes
    dsimp only
    rw [show ((q.requestID &&& 32767) ||| (if (false : Bool) then 0 else 32768)) =
        q.requestID ||| 32768 by simp [lt_and_7FFF q.requestID hrid]]
    rw [if_neg (by decide)]
    rw [if_neg (by decide)]
    rw [if_neg (by decide)]
    rw [if_neg (by decide)]
    rw [if_neg (by decide)]
    rw [if_neg (by decide)]
    rw [if_neg (by decide)]
    rw [if_neg (by decide)]
    rw [if_pos rfl]
    unfold parsePacket
    rw [if_neg (by simp [put16])]
    simp only [List.append_assoc]
    rw [read16d_put16 (q.requestID ||| 32768) (or32768_lt q.requestID hrid)]
    dsimp only
    rw [read16d_put16 tunnelData (by decide)]
    dsimp only
    rw [if_neg (by decide)]
    rw [if_neg (by decide)]
    rw [if_neg (by decide)]
    rw [if_neg (by decide)]
    rw [if_neg (by decide)]
    rw [if_neg (by decide)]
    rw [if_neg (by decide)]
    rw [if_neg (by decide)]
    rw [if_pos rfl]
    rw [if_neg (packedID_and_8000 q.requestID hrid)]
    simp [packedID_and_7FFF q.requestID hrid, packedID_and_8000 q.requestID hrid]
  · rw [hq] at hrid ⊢
    dsimp only at hrid
    unfold cmdBodyBytes
    dsimp only
    rw [show ((q.requestID &&& 32767) ||| (if (true : Bool) then 0 else 32768)) = q.requestID by
      simp [lt_and_7FFF q.requestID hrid]]
    rw [if_neg (by decide)]
    rw [if_neg (by decide)]
    rw [if_neg (by decide)]
    rw [if_neg (by decide)]
    rw [if_neg (by decide)]
    rw [if_neg (by decide)]
    rw [if_neg (by decide)]
    rw [if_neg (by decide)]
    rw [if_neg (by decide)]
    rw [if_pos rfl]
    unfold parsePacket
    rw [if_neg (by simp [put16])]
    simp only [List.append_assoc]
    rw [read16d_put16 q.requestID (by omega)]
    dsimp only
    rw [read16d_put16 tunnelClose (by decide)]
    dsimp only
    rw [if_neg (by decide)]
    rw [if_neg (by decide)]
    rw [if_neg (by decide)]
    rw [if_neg (by decide)]
    rw [if_neg (by decide)]
    rw [if_neg (by decide)]
    rw [if_neg (by decide)]
    rw [if_neg (by decide)]
    rw [if_neg (by decide)]
    rw [if_pos rfl]
    rw [if_pos (lt_and_8000 q.requestID hrid)]
    rw [read32d_put32 tid htid]
    dsimp only
    rw [show (writeNT reason : List Nat) = reason ++ 0 :: [] from rfl]
    rw [readNTd_append reason hreason]
    simp [lt_and_7FFF q.requestID hrid, lt_and_8000 q.requestID hrid]
  · rw [hq] at hrid ⊢
    dsimp only at hrid
    unfold cmdBodyBytes
    dsimp only
    rw [show ((q.requestID &&& 32767) ||| (if (false : Bool) then 0 else 32768)) =
        q.requestID ||| 32768 by simp [lt_and_7FFF q.requestID hrid]]
    rw [if_neg (by decide)]
    rw [if_neg (by decide)]
    rw [if_neg (by decide)]
    rw [if_neg (by decide)]
    rw [if_neg (by decide)]
    rw [if_neg (by decide)]
    rw [if_neg (by decide)]
    rw [if_neg (by decide)]
    rw [if_neg (by decide)]
    rw [if_pos rfl]
    unfold parsePacket
    rw [if_neg (by simp [put16])]
    simp only [List.append_assoc]
    rw [read16d_put16 (q.requestID ||| 32768) (or32768_lt q.requestID hrid)]
    dsimp only
    rw [read16d_put16 tunnelClose (by decide)]
    dsimp only
    rw [if_neg (by decide)]
    rw [if_neg (by decide)]
    rw [if_neg (by decide)]
    rw [if_neg (by decide)]
    rw [if_neg (by decide)]
    rw [if_neg (by decide)]
    rw [if_neg (by decide)]
    rw [if_neg (by decide)]
    rw [if_neg (by decide)]
    rw [if_pos rfl]
    rw [if_neg (packedID_and_8000 q.requestID hrid)]
    simp [packedID_and_7FFF q.requestID hrid, packedID_and_8000 q.requestID hrid]
  · rw [hq] at hrid ⊢
    dsimp only at hrid
    unfold cmdBodyBytes
    dsimp only
    rw [show ((q.requestID &&& 32767) ||| (if (true : Bool) then 0 else 32768)) = q.requestID by
      simp [lt_and_7FFF q.requestID hrid]]
    rw [if_neg (by decide)]
    rw [if_neg (by decide)]
    rw [if_neg (by decide)]
    rw [if_neg (by decide)]
    rw [if_neg (by decide)]
    rw [if_neg (by decide)]
    rw [if_neg (by decide)]
    rw [if_neg (by decide)]
    rw [if_neg (by decide)]
    rw [if_neg (by decide)]
    rw [if_pos rfl]
    unfold parsePacket
    rw [if_neg (by simp [put16])]
    simp only [List.append_assoc]
    rw [read16d_put16 q.requestID (by omega)]
    dsimp only
    rw [read16d_put16 commandError (by decide)]
    dsimp only
    rw [if_neg (by decide)]
    rw [if_neg (by decide)]
    rw [if_neg (by decide)]
    rw [if_neg (by decide)]
    rw [if_neg (by decide)]
    rw [if_neg (by decide)]
    rw [if_neg (by decide)]
    rw [if_neg (by decide)]
    rw [if_neg (by decide)]
    rw [if_neg (by decide)]
    rw [if_pos rfl]
    rw [read16d_put16 st hst]
    dsimp only
    rw [show (writeNT reason : List Nat) = reason ++ 0 :: [] from rfl]
    rw [readNTd_append reason hreason]
    rw [if_pos (lt_and_8000 q.requestID hrid)]
    simp [lt_and_7FFF q.requestID hrid, lt_and_8000 q.requestID hrid]
  · rw [hq] at hrid ⊢
    dsimp only at hrid
    unfold cmdBodyBytes
    dsimp only
    rw [show ((q.requestID &&& 32767) ||| (if (false : Bool) then 0 else 32768)) =
        q.requestID ||| 32768 by simp [lt_and_7FFF q.requestID hrid]]
    rw [if_neg (by decide)]
    rw [if_neg (by decide)]
    rw [if_neg (by decide)]
    rw [if_neg (by decide)]
    rw [if_neg (by decide)]
    rw [if_neg (by decide)]
    rw [if_neg (by decide)]
    rw [if_neg (by decide)]
    rw [if_neg (by decide)]
    rw [if_neg (by decide)]
    rw [if_pos rfl]
    unfold parsePacket
    rw [if_neg (by simp [put16])]
    simp only [List.append_assoc]
    rw [read16d_put16 (q.requestID ||| 32768) (or32768_lt q.requestID hrid)]
    dsimp only
    rw [read16d_put16 commandError (by decide)]
    dsimp only
    rw [if_neg (by decide)]
    rw [if_neg (by decide)]
    rw [if_neg (by decide)]
    rw [if_neg (by decide)]
    rw [if_neg (by decide)]
    rw [if_neg (by decide)]
    rw [if_neg (by decide)]
    rw [if_neg (by decide)]
    rw [if_neg (by decide)]
    rw [if_neg (by decide)]
    rw [if_pos rfl]
    rw [read16d_put16 st hst]
    dsimp only
    rw [show (writeNT reason : List Nat) = reason ++ 0 :: [] from rfl]
    rw [readNTd_append reason hreason]
    rw [if_neg (packedID_and_8000 q.requestID hrid)]
    simp [packedID_and_7FFF q.requestID hrid, packedID_and_8000 q.requestID hrid]

end Command

/-- C1 counterexample: a SYN whose name bytes contain an interior NUL meets
the claim's stated precondition (the name is present exactly when the name
option bit is set, and the serialized form is between 5 and 1024 bytes), yet
Parse truncates the name at the NUL, so the round trip fails; likewise a
TunnelConnect response with a nonzero status serializes without the status
word, so ReadPacket returns status 0 instead of the original packet. -/
theorem roundtrip_counterexample :
    Protocol.toBytes c1nulSyn = some c1nulBytes ∧
    c1nulBytes.length = 13 ∧
    Protocol.parse c1nulBytes ≠ some c1nulSyn ∧
    Command.readPacket (Command.cmdToBytes c1tcr) ≠
      Command.ReadPacketResult.ok c1tcr [] := by decide

/-- C1 (amended): the round-trip law holds for well-formed packets with
NUL-free string fields: for every outer frame whose body variant matches its
type (a SYN carrying a NUL-free name exactly when its name option bit is set,
an ENC body with its fixed-size field at exact length and the unused field
zero) and whose serialization fits in 1024 bytes, Parse ∘ ToBytes is the
identity; and for every command packet whose single body matches its command
kind and direction bit, with NUL-free strings, in-range numeric fields, a
15-bit request id, and a zero status on a TunnelConnect response, ReadPacket
decodes ToBytes back to the same packet with an empty residual buffer. -/
theorem roundtrip_claim (p : Protocol.Packet) (bytes : List Nat) (q : Command.CmdPacket)
    (hp : Protocol.wfPacket p) (hb : Protocol.toBytes p = some bytes)
    (hlen : bytes.length ≤ 1024)
    (hq : Command.wfCmd q) (hsz : (Command.cmdBodyBytes q).length + 4 < 4294967296) :
    Protocol.parse bytes = some p ∧
    Command.readPacket (Command.cmdToBytes q) = Command.ReadPacketResult.ok q [] := by
  refine ⟨Protocol.parse_toBytes_wf p bytes hp hb hlen, ?_⟩
  have he : Command.cmdToBytes q =
      put32 ((Command.cmdBodyBytes q).length % 4294967296) ++ Command.cmdBodyBytes q := rfl
  rw [he, Command.readPacket_framed _ hsz, Command.parsePacket_wf q hq]

/-- Witness for the round-trip claim at a concrete SYN packet and a concrete
ping command request. -/
theorem roundtrip_claim_witness :
    Protocol.parse c1bytes = some c1pkt ∧
    Command.readPacket (Command.cmdToBytes c1cmd) = Command.ReadPacketResult.ok c1cmd [] :=
  roundtrip_claim c1pkt c1bytes c1cmd
    ⟨by decide, by decide, Or.inl ⟨c1syn, rfl, by decide, by decide, by decide, by decide⟩⟩
    (by decide) (by decide)
    ⟨by decide, Or.inl ⟨[33], by decide, rfl⟩⟩ (by decide)

end Dnscat
